import Mathlib

set_option maxRecDepth 10000

namespace LibPisp

/-!
Verification development for libpisp, the Raspberry Pi ISP back-end
configuration generator.  The C++ sources are shallowly embedded:
unsigned machine integers become `Nat` (with explicit wrapping where the
C computation can wrap), signed quantities become `Int`, exceptions
become `Except`/`Option` results, and in-place mutation of configuration
records becomes functional record update.
-/

/-! ## Image-format descriptor

Modelled from the spec: the header `pisp_types.h` defining the packed
32-bit format-descriptor constants is not in the source tree (only their
uses in `pisp_utils.cpp` and `backend_prepare.cpp` are).  The descriptor
packs independent bit-fields for bits-per-sample, planarity, chroma
sampling, byte order, wallpaper layout, compression mode, channel count
and the HoG/integral-image flags; the concrete bit positions below are
chosen so that all fields are disjoint, which is the only property the
code relies on. -/

def PISP_IMAGE_FORMAT_BPS_8 : Nat := 0x00000000

def PISP_IMAGE_FORMAT_BPS_10 : Nat := 0x00000001

def PISP_IMAGE_FORMAT_BPS_12 : Nat := 0x00000002

def PISP_IMAGE_FORMAT_BPS_16 : Nat := 0x00000003

def PISP_IMAGE_FORMAT_BPS_MASK : Nat := 0x00000003

def PISP_IMAGE_FORMAT_PLANARITY_INTERLEAVED : Nat := 0x00000000

def PISP_IMAGE_FORMAT_PLANARITY_SEMI_PLANAR : Nat := 0x00000010

def PISP_IMAGE_FORMAT_PLANARITY_PLANAR : Nat := 0x00000020

def PISP_IMAGE_FORMAT_PLANARITY_MASK : Nat := 0x00000030

def PISP_IMAGE_FORMAT_SAMPLING_444 : Nat := 0x00000000

def PISP_IMAGE_FORMAT_SAMPLING_422 : Nat := 0x00000100

def PISP_IMAGE_FORMAT_SAMPLING_420 : Nat := 0x00000200

def PISP_IMAGE_FORMAT_SAMPLING_MASK : Nat := 0x00000300

def PISP_IMAGE_FORMAT_ORDER_SWAPPED : Nat := 0x00001000

def PISP_IMAGE_FORMAT_FORMAT_WALLPAPER : Nat := 0x00010000

def PISP_IMAGE_FORMAT_FORMAT_MASK : Nat := 0x00010000

def PISP_IMAGE_FORMAT_UNCOMPRESSED : Nat := 0x00000000

def PISP_IMAGE_FORMAT_COMPRESSION_MODE_1 : Nat := 0x01000000

def PISP_IMAGE_FORMAT_COMPRESSION_MODE_2 : Nat := 0x02000000

def PISP_IMAGE_FORMAT_COMPRESSION_MASK : Nat := 0x03000000

def PISP_IMAGE_FORMAT_THREE_CHANNEL : Nat := 0x04000000

def PISP_IMAGE_FORMAT_BPP_32 : Nat := 0x08000000

def PISP_IMAGE_FORMAT_INTEGRAL_IMAGE : Nat := 0x10000000

def PISP_IMAGE_FORMAT_HOG_SIGNED : Nat := 0x20000000

def PISP_IMAGE_FORMAT_HOG_UNSIGNED : Nat := 0x40000000

def PISP_WALLPAPER_WIDTH : Nat := 128

/-- Predicate `PISP_IMAGE_FORMAT_BPS_8(fmt)`: masked bits-per-sample field
equals the 8-bit code. -/
def fmt_bps_8 (f : Nat) : Bool := f &&& PISP_IMAGE_FORMAT_BPS_MASK == PISP_IMAGE_FORMAT_BPS_8

/-- Predicate `PISP_IMAGE_FORMAT_BPS_10(fmt)`. -/
def fmt_bps_10 (f : Nat) : Bool := f &&& PISP_IMAGE_FORMAT_BPS_MASK == PISP_IMAGE_FORMAT_BPS_10

/-- Predicate `PISP_IMAGE_FORMAT_BPS_16(fmt)`. -/
def fmt_bps_16 (f : Nat) : Bool := f &&& PISP_IMAGE_FORMAT_BPS_MASK == PISP_IMAGE_FORMAT_BPS_16

/-- Predicate `PISP_IMAGE_FORMAT_BPP_32(fmt)`. -/
def fmt_bpp_32 (f : Nat) : Bool := f &&& PISP_IMAGE_FORMAT_BPP_32 != 0

/-- Predicate `PISP_IMAGE_FORMAT_PLANAR(fmt)`: planarity field is fully planar. -/
def fmt_planar (f : Nat) : Bool :=
  f &&& PISP_IMAGE_FORMAT_PLANARITY_MASK == PISP_IMAGE_FORMAT_PLANARITY_PLANAR

/-- Predicate `PISP_IMAGE_FORMAT_SEMIPLANAR(fmt)`. -/
def fmt_semi_planar (f : Nat) : Bool :=
  f &&& PISP_IMAGE_FORMAT_PLANARITY_MASK == PISP_IMAGE_FORMAT_PLANARITY_SEMI_PLANAR

/-- Predicate `PISP_IMAGE_FORMAT_INTERLEAVED(fmt)`. -/
def fmt_interleaved (f : Nat) : Bool :=
  f &&& PISP_IMAGE_FORMAT_PLANARITY_MASK == PISP_IMAGE_FORMAT_PLANARITY_INTERLEAVED

/-- Predicate `PISP_IMAGE_FORMAT_THREE_CHANNEL(fmt)`. -/
def fmt_three_channel (f : Nat) : Bool := f &&& PISP_IMAGE_FORMAT_THREE_CHANNEL != 0

/-- Predicate `PISP_IMAGE_FORMAT_SAMPLING_444(fmt)`. -/
def fmt_sampling_444 (f : Nat) : Bool :=
  f &&& PISP_IMAGE_FORMAT_SAMPLING_MASK == PISP_IMAGE_FORMAT_SAMPLING_444

/-- Predicate `PISP_IMAGE_FORMAT_SAMPLING_422(fmt)`. -/
def fmt_sampling_422 (f : Nat) : Bool :=
  f &&& PISP_IMAGE_FORMAT_SAMPLING_MASK == PISP_IMAGE_FORMAT_SAMPLING_422

/-- Predicate `PISP_IMAGE_FORMAT_SAMPLING_420(fmt)`. -/
def fmt_sampling_420 (f : Nat) : Bool :=
  f &&& PISP_IMAGE_FORMAT_SAMPLING_MASK == PISP_IMAGE_FORMAT_SAMPLING_420

/-- Predicate `PISP_IMAGE_FORMAT_WALLPAPER(fmt)`. -/
def fmt_wallpaper (f : Nat) : Bool :=
  f &&& PISP_IMAGE_FORMAT_FORMAT_MASK == PISP_IMAGE_FORMAT_FORMAT_WALLPAPER

/-- Predicate `PISP_IMAGE_FORMAT_COMPRESSED(fmt)`. -/
def fmt_compressed (f : Nat) : Bool :=
  f &&& PISP_IMAGE_FORMAT_COMPRESSION_MASK != PISP_IMAGE_FORMAT_UNCOMPRESSED

/-- Predicate `PISP_IMAGE_FORMAT_HOG(fmt)`. -/
def fmt_hog (f : Nat) : Bool :=
  f &&& (PISP_IMAGE_FORMAT_HOG_SIGNED ||| PISP_IMAGE_FORMAT_HOG_UNSIGNED) != 0

/-- Predicate testing the `PISP_IMAGE_FORMAT_HOG_UNSIGNED` flag. -/
def fmt_hog_unsigned (f : Nat) : Bool := f &&& PISP_IMAGE_FORMAT_HOG_UNSIGNED != 0

/-- Predicate testing `format & (PISP_IMAGE_FORMAT_INTEGRAL_IMAGE | PISP_IMAGE_FORMAT_BPP_32)`,
as used at the top of `compute_x_offset`. -/
def fmt_integral_or_bpp32 (f : Nat) : Bool :=
  f &&& (PISP_IMAGE_FORMAT_INTEGRAL_IMAGE ||| PISP_IMAGE_FORMAT_BPP_32) != 0

/-! ## Image format configuration and stride computation (`pisp_utils.cpp`) -/

/-- The struct `pisp_image_format_config`: width and height are `uint16_t`,
`format` is the packed descriptor, `stride`/`stride2` are byte strides
(modelled as `Nat`; callers pass non-negative strides). -/
structure ImageFormatConfig where
  width : Nat
  height : Nat
  format : Nat
  stride : Nat
  stride2 : Nat
deriving Repr, DecidableEq

/-- Alignment constants from `pisp_be_config.h`. -/
def PISP_BACK_END_INPUT_ALIGN : Nat := 4

def PISP_BACK_END_COMPRESSED_ALIGN : Nat := 8

def PISP_BACK_END_OUTPUT_MIN_ALIGN : Nat := 16

def PISP_BACK_END_OUTPUT_MAX_ALIGN : Nat := 64

def PISP_BACK_END_MIN_TILE_WIDTH : Nat := 16

def PISP_BACK_END_MIN_TILE_HEIGHT : Nat := 16

def PISP_BACK_END_NUM_TILES : Nat := 64

/-- Round `x` up to the next multiple of `a`; for a power of two this is the
C idiom `(x + a - 1) & ~(a - 1)` used throughout `pisp_utils.cpp`. -/
def alignN (x a : Nat) : Nat := (x + a - 1) / a * a

/-- The function `compute_x_offset(format, x)` of `pisp_utils.cpp`: byte
offset of column `x` for the given format. -/
def compute_x_offset (format : Nat) (x : Nat) : Nat :=
  if fmt_hog format then
    x * (if fmt_hog_unsigned format then 32 else 48)
  else if fmt_integral_or_bpp32 format then
    x * 4
  else
    let bps := format &&& PISP_IMAGE_FORMAT_BPS_MASK
    let x_offset :=
      if bps == PISP_IMAGE_FORMAT_BPS_16 then x * 2
      else if bps == PISP_IMAGE_FORMAT_BPS_12 then (x * 3 + 1) / 2
      else if bps == PISP_IMAGE_FORMAT_BPS_10 then (x / 3) * 4
      else x
    if fmt_three_channel format && fmt_interleaved format then
      if fmt_sampling_422 format then x_offset * 2 else x_offset * 3
    else
      x_offset

/-- The value `computed_stride` of `compute_stride_align`: minimum byte width
of a row, with compressed widths first padded to blocks of 8 samples. -/
def computed_stride (c : ImageFormatConfig) : Nat :=
  compute_x_offset c.format (if fmt_compressed c.format then alignN c.width 8 else c.width)

/-- The effective stride after the line
`if (!config.stride || config.stride < computed_stride) config.stride = computed_stride;`. -/
def strideBase (c : ImageFormatConfig) : Nat :=
  if c.stride = 0 ∨ c.stride < computed_stride c then computed_stride c else c.stride

/-- The second-plane stride before alignment (the `switch` on the planarity
field in `compute_stride_align`), as a function of the first-plane stride. -/
def stride2Base (format s1 : Nat) : Nat :=
  if fmt_planar format then
    if fmt_sampling_422 format || fmt_sampling_420 format then s1 / 2
    else if fmt_three_channel format then s1
    else 0
  else if fmt_semi_planar format then s1
  else 0

/-- The function `compute_stride_align(config, align, preserve_subsample_ratio)`
of `pisp_utils.cpp`, as a pure function on the configuration record. -/
def compute_stride_align (c : ImageFormatConfig) (align : Nat) (preserve : Bool) :
    ImageFormatConfig :=
  if fmt_wallpaper c.format then
    let s := c.height * PISP_WALLPAPER_WIDTH
    { c with stride := s, stride2 := if fmt_sampling_420 c.format then s / 2 else s }
  else
    let s1 := strideBase c
    if fmt_hog c.format then
      { c with stride := s1, stride2 := 0 }
    else
      let s := alignN s1 align
      let s2 := alignN (stride2Base c.format s1) align
      if preserve && fmt_planar c.format &&
          (fmt_sampling_422 c.format || fmt_sampling_420 c.format) then
        { c with stride := 2 * s2, stride2 := s2 }
      else
        { c with stride := s, stride2 := s2 }

/-- The function `compute_stride(config)`: `compute_stride_align` at the
minimum output alignment of 16 bytes, with `preserve_subsample_ratio`
defaulted to `false` (see the declaration in `utils.hpp`). -/
def compute_stride (c : ImageFormatConfig) : ImageFormatConfig :=
  compute_stride_align c PISP_BACK_END_OUTPUT_MIN_ALIGN false

/-! ## The string/descriptor conversion table (`pisp_utils.cpp`) -/

/-- The table `formats_table()` of `pisp_utils.cpp`, listed in the iteration
order of `std::map<std::string, uint32_t>` (lexicographic by name).  Each
value is the sum of descriptor constants written in the source. -/
def formats_table : List (String × Nat) :=
  [ ("BAYER", PISP_IMAGE_FORMAT_BPS_16 + PISP_IMAGE_FORMAT_UNCOMPRESSED),
    ("NV12", PISP_IMAGE_FORMAT_THREE_CHANNEL + PISP_IMAGE_FORMAT_BPS_8 +
      PISP_IMAGE_FORMAT_SAMPLING_420 + PISP_IMAGE_FORMAT_PLANARITY_SEMI_PLANAR),
    ("NV16", PISP_IMAGE_FORMAT_THREE_CHANNEL + PISP_IMAGE_FORMAT_BPS_8 +
      PISP_IMAGE_FORMAT_SAMPLING_422 + PISP_IMAGE_FORMAT_PLANARITY_SEMI_PLANAR),
    ("NV21", PISP_IMAGE_FORMAT_THREE_CHANNEL + PISP_IMAGE_FORMAT_BPS_8 +
      PISP_IMAGE_FORMAT_SAMPLING_420 + PISP_IMAGE_FORMAT_PLANARITY_SEMI_PLANAR +
      PISP_IMAGE_FORMAT_ORDER_SWAPPED),
    ("NV61", PISP_IMAGE_FORMAT_THREE_CHANNEL + PISP_IMAGE_FORMAT_BPS_8 +
      PISP_IMAGE_FORMAT_SAMPLING_422 + PISP_IMAGE_FORMAT_PLANARITY_SEMI_PLANAR +
      PISP_IMAGE_FORMAT_ORDER_SWAPPED),
    ("PISP_COMP1", PISP_IMAGE_FORMAT_COMPRESSION_MODE_1),
    ("PISP_COMP2", PISP_IMAGE_FORMAT_COMPRESSION_MODE_2),
    ("RGB161616", PISP_IMAGE_FORMAT_THREE_CHANNEL + PISP_IMAGE_FORMAT_BPS_16),
    ("RGB888", PISP_IMAGE_FORMAT_THREE_CHANNEL),
    ("RGBX8888", PISP_IMAGE_FORMAT_THREE_CHANNEL + PISP_IMAGE_FORMAT_BPP_32 +
      PISP_IMAGE_FORMAT_ORDER_SWAPPED),
    ("UYVY", PISP_IMAGE_FORMAT_THREE_CHANNEL + PISP_IMAGE_FORMAT_BPS_8 +
      PISP_IMAGE_FORMAT_SAMPLING_422 + PISP_IMAGE_FORMAT_PLANARITY_INTERLEAVED +
      PISP_IMAGE_FORMAT_ORDER_SWAPPED),
    ("YUV420P", PISP_IMAGE_FORMAT_THREE_CHANNEL + PISP_IMAGE_FORMAT_BPS_8 +
      PISP_IMAGE_FORMAT_SAMPLING_420 + PISP_IMAGE_FORMAT_PLANARITY_PLANAR),
    ("YUV422P", PISP_IMAGE_FORMAT_THREE_CHANNEL + PISP_IMAGE_FORMAT_BPS_8 +
      PISP_IMAGE_FORMAT_SAMPLING_422 + PISP_IMAGE_FORMAT_PLANARITY_PLANAR),
    ("YUV444P", PISP_IMAGE_FORMAT_THREE_CHANNEL + PISP_IMAGE_FORMAT_BPS_8 +
      PISP_IMAGE_FORMAT_SAMPLING_444 + PISP_IMAGE_FORMAT_PLANARITY_PLANAR),
    ("YUYV", PISP_IMAGE_FORMAT_THREE_CHANNEL + PISP_IMAGE_FORMAT_BPS_8 +
      PISP_IMAGE_FORMAT_SAMPLING_422 + PISP_IMAGE_FORMAT_PLANARITY_INTERLEAVED) ]

/-- The overload `get_pisp_image_format(const std::string&)`: exact-key map
lookup, returning 0 when the name is not in the table. -/
def get_pisp_image_format (format : String) : Nat :=
  match formats_table.lookup format with
  | some v => v
  | none => 0

/-- The overload `get_pisp_image_format(uint32_t)`: `std::find_if` over the
map in iteration order for the first entry with this value, returning the
empty string at the end of the table. -/
def get_pisp_image_format_name (format : Nat) : String :=
  match formats_table.find? (fun f => f.snd == format) with
  | some f => f.fst
  | none => ""

/-! ## Helper lemmas about stride alignment -/

/-- A record with only the stride fields replaced; `compute_stride_align`
only ever writes the stride fields. -/
def withStrides (c : ImageFormatConfig) (s s2 : Nat) : ImageFormatConfig :=
  { c with stride := s, stride2 := s2 }

/-- Claim C6 counterexample input: a fully-planar YUV 4:2:0 image of width 33
with unset strides. -/
def c6Config : ImageFormatConfig :=
  ImageFormatConfig.mk 33 32
    (PISP_IMAGE_FORMAT_THREE_CHANNEL + PISP_IMAGE_FORMAT_BPS_8 +
      PISP_IMAGE_FORMAT_SAMPLING_420 + PISP_IMAGE_FORMAT_PLANARITY_PLANAR) 0 0

/-! ## Claim C10: the format name/descriptor conversions -/

/-! ## Claim C7: the stitch motion-threshold reciprocal auto-fill -/

/-- The auto-fill at the end of `finalise_stitch` (backend_prepare.cpp):
when `motion_threshold_recip` is zero on entry it is computed from
`motion_threshold_256`, otherwise it is left alone.  Both fields are
`uint8_t`. -/
def finalise_stitch_motion (recip t : Nat) : Nat :=
  if recip = 0 then
    if t = 0 then 255
    else min 255 ((256 + t - 1) / t)
  else recip

/-! ## Claim C1: `SplitStage::PushEndDown`

Modelled from the spec where the geometry header is missing: `types.hpp`
(defining `Interval`) is not in the source tree; per spec section 4.1 an
interval is `{offset, length}` with `End() = offset + length`, and `SetEnd`
adjusts the length from the offset, saturating at zero.  The body of
`SplitStage::PushEndDown` itself is translated from
`backend/tiling/split_stage.cpp` lines 60-89. -/

/-- The tiling `Interval` of `types.hpp` (modelled from the spec, see above). -/
structure Interval where
  offset : Int
  length : Int
deriving Repr, DecidableEq

/-- `Interval::End()`. -/
def Interval.End (i : Interval) : Int := i.offset + i.length

/-- `Interval::SetEnd(end)`: adjust `length` so the interval ends at `end`,
clamped at zero. -/
def Interval.setEnd (i : Interval) (e : Int) : Interval :=
  { i with length := max (e - i.offset) 0 }

/-- The body of the first loop of `SplitStage::PushEndDown`:
`if (branch_end > input_interval_.End()) input_interval_.SetEnd(branch_end);`. -/
def splitFoldStep (acc : Interval) (e : Int) : Interval :=
  if acc.End < e then acc.setEnd e else acc

/-- One call of `SplitStage::PushEndDown(input_end, dir)`.  The downstream
branches are modelled by their first-round response functions: branch `f`
replies `f input_end` when the split pushes `input_end` down.  `offset` is
the current offset of the split's `input_interval_`.  The result is `none`
when the split raises `TilingException` ("Neither branch can make progress"),
otherwise `some (returned_end, second_round_pushes)`, where
`second_round_pushes` lists the value pushed down to each branch in the
final broadcast. -/
def splitPushEndDown (offset : Int) (branches : List (Int → Int)) (input_end : Int) :
    Option (Int × List Int) :=
  let itv := (branches.map (fun f => f input_end)).foldl splitFoldStep
    ((Interval.mk offset 0).setEnd 0)
  if itv.length = 0 then none
  else some (itv.End, branches.map (fun _ => itv.End))

/-! ## Back-end block enable bits (`pisp_be_config.h`) -/

def PISP_BE_BAYER_ENABLE_INPUT : Nat := 0x000001

def PISP_BE_BAYER_ENABLE_DECOMPRESS : Nat := 0x000002

def PISP_BE_BAYER_ENABLE_TDN_INPUT : Nat := 0x000010

def PISP_BE_BAYER_ENABLE_TDN_DECOMPRESS : Nat := 0x000020

def PISP_BE_BAYER_ENABLE_TDN : Nat := 0x000040

def PISP_BE_BAYER_ENABLE_TDN_COMPRESS : Nat := 0x000080

def PISP_BE_BAYER_ENABLE_TDN_OUTPUT : Nat := 0x000100

def PISP_BE_BAYER_ENABLE_STITCH_INPUT : Nat := 0x000800

def PISP_BE_BAYER_ENABLE_STITCH_DECOMPRESS : Nat := 0x001000

def PISP_BE_BAYER_ENABLE_STITCH : Nat := 0x002000

def PISP_BE_BAYER_ENABLE_STITCH_COMPRESS : Nat := 0x004000

def PISP_BE_BAYER_ENABLE_STITCH_OUTPUT : Nat := 0x008000

def PISP_BE_BAYER_ENABLE_LSC : Nat := 0x040000

def PISP_BE_BAYER_ENABLE_CAC : Nat := 0x100000

def PISP_BE_RGB_ENABLE_INPUT : Nat := 0x000001

def PISP_BE_RGB_ENABLE_DOWNSCALE0 : Nat := 0x001000

def PISP_BE_RGB_ENABLE_RESAMPLE0 : Nat := 0x008000

def PISP_BE_RGB_ENABLE_OUTPUT0 : Nat := 0x040000

/-- `PISP_BE_RGB_ENABLE_DOWNSCALE(i)`. -/
def PISP_BE_RGB_ENABLE_DOWNSCALE (i : Nat) : Nat := PISP_BE_RGB_ENABLE_DOWNSCALE0 <<< i

/-- `PISP_BE_RGB_ENABLE_RESAMPLE(i)`. -/
def PISP_BE_RGB_ENABLE_RESAMPLE (i : Nat) : Nat := PISP_BE_RGB_ENABLE_RESAMPLE0 <<< i

/-- `PISP_BE_RGB_ENABLE_OUTPUT(i)`. -/
def PISP_BE_RGB_ENABLE_OUTPUT (i : Nat) : Nat := PISP_BE_RGB_ENABLE_OUTPUT0 <<< i

def PISP_BE_DIRTY_CROP : Nat := 0x0004

def PISP_BE_TRANSFORM_HFLIP : Nat := 0x1

def PISP_BE_TRANSFORM_VFLIP : Nat := 0x2

/-- Bit-mask membership test, the C idiom `(x & mask)` used as a boolean. -/
def hasBits (x mask : Nat) : Bool := x &&& mask != 0

/-! ## Back-end configuration records (subset of `pisp_be_config` /
`BackEnd::BeConfigExtra` read or written by the embedded functions; register
payloads that the preparer never reads, such as filter coefficient arrays and
gain tables, are omitted from the model) -/

structure GlobalConfig where
  bayer_enables : Nat
  rgb_enables : Nat
deriving Repr, DecidableEq

structure OutputFormatConfig where
  image : ImageFormatConfig
  transform : Nat
  lo : Nat
  hi : Nat
  lo2 : Nat
  hi2 : Nat
deriving Repr, DecidableEq

structure DownscaleConfig where
  scale_factor_h : Nat
  scale_factor_v : Nat
  scale_recip_h : Nat
  scale_recip_v : Nat
deriving Repr, DecidableEq

structure DownscaleExtra where
  scaled_width : Nat
  scaled_height : Nat
deriving Repr, DecidableEq

structure ResampleConfig where
  scale_factor_h : Nat
  scale_factor_v : Nat
deriving Repr, DecidableEq

structure ResampleExtra where
  scaled_width : Nat
  scaled_height : Nat
  initial_phase_h : List Int
  initial_phase_v : List Int
deriving Repr, DecidableEq

structure StitchConfig where
  motion_threshold_256 : Nat
  motion_threshold_recip : Nat
deriving Repr, DecidableEq

structure TdnConfig where
  reset : Bool
deriving Repr, DecidableEq

structure LscConfig where
  grid_step_x : Nat
  grid_step_y : Nat
deriving Repr, DecidableEq

structure GridExtra where
  offset_x : Nat
  offset_y : Nat
deriving Repr, DecidableEq

structure CacConfig where
  grid_step_x : Nat
  grid_step_y : Nat
deriving Repr, DecidableEq

structure CropConfig where
  offset_x : Nat
  offset_y : Nat
  width : Nat
  height : Nat
deriving Repr, DecidableEq

/-- The subset of `pisp_be_config` used by the embedded preparer code. -/
structure BeConfig where
  global : GlobalConfig
  input_format : ImageFormatConfig
  tdn_input_format : ImageFormatConfig
  tdn : TdnConfig
  tdn_output_format : ImageFormatConfig
  stitch_output_format : ImageFormatConfig
  stitch_input_format : ImageFormatConfig
  stitch : StitchConfig
  lsc : LscConfig
  cac : CacConfig
  downscale : List DownscaleConfig
  resample : List ResampleConfig
  output_format : List OutputFormatConfig
deriving Repr, DecidableEq

/-- The subset of `BackEnd::BeConfigExtra` used by the embedded code. -/
structure BeConfigExtra where
  lsc : GridExtra
  cac : GridExtra
  downscale : List DownscaleExtra
  resample : List ResampleExtra
  crop : List CropConfig
  dirty_flags_bayer : Nat
  dirty_flags_rgb : Nat
  dirty_flags_extra : Nat
deriving Repr, DecidableEq

/-! ## Claim C3: `finalise_inputs` (backend_prepare.cpp lines 58-84) -/

/-- The function `finalise_inputs(config)`: dimension and stride checks on the
input image.  Note that in the 4:2:0 case the code tests
`config.input_format.width & 1` although the message (and the spec's
invariant) speak of the height. -/
def finalise_inputs (c : BeConfig) : Except String Unit :=
  if hasBits c.global.bayer_enables PISP_BE_BAYER_ENABLE_INPUT then
    if hasBits c.input_format.width 1 || hasBits c.input_format.height 1 then
      .error "finalise_inputs: Bayer pipe image dimensions must be even"
    else if hasBits c.input_format.stride 15 then
      .error "finalise_inputs: input stride should be at least 16-byte aligned"
    else .ok ()
  else if hasBits c.global.rgb_enables PISP_BE_RGB_ENABLE_INPUT then
    if fmt_sampling_420 c.input_format.format && hasBits c.input_format.width 1 then
      .error "finalise_inputs: 420 input height must be even"
    else if (fmt_sampling_420 c.input_format.format || fmt_sampling_422 c.input_format.format)
        && hasBits c.input_format.width 1 then
      .error "finalise_inputs: 420/422 input width must be even"
    else if fmt_wallpaper c.input_format.format then
      if hasBits c.input_format.stride 127 || hasBits c.input_format.stride2 127 then
        .error "finalise_inputs: wallpaper format strides must be at least 128-byte aligned"
      else .ok ()
    else if hasBits c.input_format.stride 15 || hasBits c.input_format.stride2 15 then
      .error "finalise_inputs: input strides must be at least 16-byte aligned"
    else .ok ()
  else .ok ()

/-- An all-zero `BeConfig`, used as the base of concrete test configurations. -/
def BeConfig.zero : BeConfig :=
  { global := { bayer_enables := 0, rgb_enables := 0 }
    input_format := ⟨0, 0, 0, 0, 0⟩
    tdn_input_format := ⟨0, 0, 0, 0, 0⟩
    tdn := { reset := false }
    tdn_output_format := ⟨0, 0, 0, 0, 0⟩
    stitch_output_format := ⟨0, 0, 0, 0, 0⟩
    stitch_input_format := ⟨0, 0, 0, 0, 0⟩
    stitch := { motion_threshold_256 := 0, motion_threshold_recip := 0 }
    lsc := { grid_step_x := 0, grid_step_y := 0 }
    cac := { grid_step_x := 0, grid_step_y := 0 }
    downscale := [⟨0, 0, 0, 0⟩, ⟨0, 0, 0, 0⟩]
    resample := [⟨0, 0⟩, ⟨0, 0⟩]
    output_format := [⟨⟨0, 0, 0, 0, 0⟩, 0, 0, 0, 0, 0⟩, ⟨⟨0, 0, 0, 0, 0⟩, 0, 0, 0, 0, 0⟩] }

/-- The YUV420P planar descriptor used in concrete tests. -/
def yuv420Fmt : Nat :=
  PISP_IMAGE_FORMAT_THREE_CHANNEL + PISP_IMAGE_FORMAT_BPS_8 +
    PISP_IMAGE_FORMAT_SAMPLING_420 + PISP_IMAGE_FORMAT_PLANARITY_PLANAR

/-- C3 failing input: RGB input enabled, 4:2:0 sampled input of width 32
(even) and ODD height 17 with aligned strides. -/
def c3OddHeight : BeConfig :=
  { BeConfig.zero with
    global := { bayer_enables := 0, rgb_enables := PISP_BE_RGB_ENABLE_INPUT }
    input_format := ⟨32, 17, yuv420Fmt, 64, 32⟩ }

/-- A companion input: the same configuration with EVEN height 16 and odd
width 33. -/
def c3OddWidth : BeConfig :=
  { BeConfig.zero with
    global := { bayer_enables := 0, rgb_enables := PISP_BE_RGB_ENABLE_INPUT }
    input_format := ⟨33, 16, yuv420Fmt, 64, 32⟩ }

/-! ## Claim C4: the smart-resize downscaler decision
(`BackEnd::updateSmartResize`, backend_prepare.cpp lines 571-617) -/

/-- `std::clamp(v, lo, hi)` (welldefined for `lo ≤ hi`). -/
def clampN (v lo hi : Nat) : Nat := max lo (min v hi)

/-- One axis of the downscaler programming in `updateSmartResize`: the
downscaler output dimension starts at the rescaler input dimension and is
clamped only when the target demands more than 2x reduction on this axis. -/
def smartDownscaleDim (target inDim : Nat) : Nat :=
  if target * 2 < inDim then clampN (target * 2) ((inDim + 7) / 8) (inDim / 2) else inDim

/-- The downscaler decision of `updateSmartResize` for one branch with
smart-resize target `(tw, th)` and rescaler input `(iw, ih)`:
`some (w, h)` means the downscaler enable is set and its output size
programmed to `(w, h)`; `none` means the downscaler enable is cleared. -/
def smartResizeDownscale (avail : Bool) (iw ih tw th : Nat) : Option (Nat × Nat) :=
  if avail && (decide (tw * 2 < iw) || decide (th * 2 < ih)) then
    some (smartDownscaleDim tw iw, smartDownscaleDim th ih)
  else
    none

/-! ## Tiling geometry (`types.hpp`, `pisp_tiling.hpp`)

Modelled from the spec where headers are missing: `types.hpp` (`Interval2`,
`Crop`, `Crop2`, `Length2`) and `pisp_tiling.hpp` (`Tile`, `TilingConfig`)
are not in the source tree; they are reconstructed here from spec section
4.1/4.3 and from every use in `backend_prepare.cpp`. -/

/-- `Crop{start, end}`: padding removed at each side (the C field `end` is
called `stop` here because `end` is reserved in Lean). -/
structure Crop where
  start : Int
  stop : Int
deriving Repr, DecidableEq

instance : Add Crop := ⟨fun a b => ⟨a.start + b.start, a.stop + b.stop⟩⟩

structure Crop2 where
  x : Crop
  y : Crop
deriving Repr, DecidableEq

instance : Add Crop2 := ⟨fun a b => ⟨a.x + b.x, a.y + b.y⟩⟩

structure Interval2 where
  x : Interval
  y : Interval
deriving Repr, DecidableEq

structure Length2 where
  dx : Int
  dy : Int
deriving Repr, DecidableEq

/-- `Interval operator-(Crop)`: remove the crop's padding from an interval. -/
def Interval.subCrop (i : Interval) (c : Crop) : Interval :=
  ⟨i.offset + c.start, i.length - c.start - c.stop⟩

/-- The per-stage `Region` copied into a software tile (`CopyOut`). -/
structure Region where
  input : Interval2
  crop : Crop2
  output : Interval2
deriving Repr, DecidableEq

def Region.zero : Region :=
  ⟨⟨⟨0, 0⟩, ⟨0, 0⟩⟩, ⟨⟨0, 0⟩, ⟨0, 0⟩⟩, ⟨⟨0, 0⟩, ⟨0, 0⟩⟩⟩

/-- The software `Tile` produced by the tiling library (`pisp_tiling.hpp`),
with one region per stage and per branch, as read by
`BackEnd::retilePipeline`. -/
structure SwTile where
  input : Region
  crop : List Region
  downscale : List Region
  resample : List Region
  output : List Region
deriving Repr, DecidableEq

/-- The `TilingConfig` structure filled in by `BackEnd::updateTiles`. -/
structure TilingConfig where
  input_alignment : Length2
  input_image_size : Length2
  crop : List Interval2
  output_h_mirror : List Bool
  downscale_factor : List Length2
  resample_factor : List Length2
  downscale_image_size : List Length2
  output_image_size : List Length2
  output_max_alignment : List Length2
  output_min_alignment : List Length2
  max_tile_size : Length2
  min_tile_size : Length2
  resample_enables : Nat
  downscale_enables : Nat
  compressed_input : Bool
deriving Repr, DecidableEq

/-- The hardware tile record `pisp_tile` (`pisp_be_config.h`); per-branch
`uint16_t` arrays become lists indexed by branch, and the plane-major
per-plane phase arrays become per-branch lists of the three plane values. -/
structure PispTile where
  edge : Nat
  input_addr_offset : Nat
  input_addr_offset2 : Nat
  input_offset_x : Nat
  input_offset_y : Nat
  input_width : Nat
  input_height : Nat
  tdn_input_addr_offset : Nat
  tdn_output_addr_offset : Nat
  stitch_input_addr_offset : Nat
  stitch_output_addr_offset : Nat
  lsc_grid_offset_x : Nat
  lsc_grid_offset_y : Nat
  cac_grid_offset_x : Nat
  cac_grid_offset_y : Nat
  crop_x_start : List Nat
  crop_x_end : List Nat
  crop_y_start : List Nat
  crop_y_end : List Nat
  downscale_phase_x : List (List Nat)
  downscale_phase_y : List (List Nat)
  resample_in_width : List Nat
  resample_in_height : List Nat
  resample_phase_x : List (List Nat)
  resample_phase_y : List (List Nat)
  output_offset_x : List Nat
  output_offset_y : List Nat
  output_width : List Nat
  output_height : List Nat
  output_addr_offset : List Nat
  output_addr_offset2 : List Nat
deriving Repr, DecidableEq

/-- Edge-flag constants from `pisp_be_config.h`. -/
def PISP_LEFT_EDGE : Nat := 1

def PISP_RIGHT_EDGE : Nat := 2

def PISP_TOP_EDGE : Nat := 4

def PISP_BOTTOM_EDGE : Nat := 8

/-- Conversion of a C `int` value to `unsigned int` (the implicit conversion
in `unsigned int width_after_crop = tile.input_width - crop_start - crop_end`). -/
def wrap32 (x : Int) : Nat := (x % 4294967296).toNat

/-- Conversion of a C `int` value to `uint16_t` (assignments into the
`pisp_tile` fields). -/
def wrap16 (x : Int) : Nat := (x % 65536).toNat

/-! ## Claim C2: `check_tiles` (backend_prepare.cpp lines 308-367) -/

/-- The local `width_after_crop` of `check_tiles`: an `unsigned int` holding
`tile.input_width - tile.crop_x_start[i] - tile.crop_x_end[i]`. -/
def widthAfterCrop (t : PispTile) (i : Nat) : Nat :=
  wrap32 ((t.input_width : Int) - (t.crop_x_start.getD i 0 : Int) -
    (t.crop_x_end.getD i 0 : Int))

/-- The local `height_after_crop` of `check_tiles`. -/
def heightAfterCrop (t : PispTile) (i : Nat) : Nat :=
  wrap32 ((t.input_height : Int) - (t.crop_y_start.getD i 0 : Int) -
    (t.crop_y_end.getD i 0 : Int))

/-- The local `rh_edge` of `check_tiles`: this tile's branch output ends at
the branch's output image width. -/
def rhEdge (t : PispTile) (tcfg : TilingConfig) (i : Nat) : Prop :=
  (t.output_offset_x.getD i 0 + t.output_width.getD i 0 : Int) =
    (tcfg.output_image_size.getD i ⟨0, 0⟩).dx

instance (t : PispTile) (tcfg : TilingConfig) (i : Nat) : Decidable (rhEdge t tcfg i) := by
  unfold rhEdge
  infer_instance

/-- The per-branch body of `check_tiles` for one tile and one enabled branch.
`PISP_ASSERT` failures are modelled as errors of their own (the macro is
`assert`, which aborts in debug builds). -/
def check_tile_branch (t : PispTile) (tcfg : TilingConfig) (i : Nat) :
    Except String Unit :=
  if (widthAfterCrop t i * heightAfterCrop t i = 0) ≠
      (t.output_width.getD i 0 * t.output_height.getD i 0 = 0) then
    .error "PISP_ASSERT: cropped-away tiles and empty outputs must coincide"
  else if widthAfterCrop t i ≠ 0 ∧ heightAfterCrop t i ≠ 0 then
    if widthAfterCrop t i < PISP_BACK_END_MIN_TILE_WIDTH ∧ ¬rhEdge t tcfg i then
      .error "Tile width too small after crop"
    else if heightAfterCrop t i < PISP_BACK_END_MIN_TILE_HEIGHT then
      .error "Tile height too small after crop"
    else if t.resample_in_width.getD i 0 < PISP_BACK_END_MIN_TILE_WIDTH ∧ ¬rhEdge t tcfg i then
      .error "Tile width too small after downscale"
    else if t.resample_in_height.getD i 0 < PISP_BACK_END_MIN_TILE_HEIGHT then
      .error "Tile height too small after downscale"
    else if ¬rhEdge t tcfg i ∧ t.output_width.getD i 0 < PISP_BACK_END_MIN_TILE_WIDTH then
      .error "Tile width too small at output"
    else if t.output_height.getD i 0 < PISP_BACK_END_MIN_TILE_HEIGHT then
      .error "Tile height too small at output"
    else .ok ()
  else .ok ()

/-- The amended minimum-size guarantee for one tile and branch: when the
sub-tile is not cropped away, the heights meet the 16-pixel minimum
everywhere, and the widths do as well unless this is the branch's rightmost
tile. -/
def branchMinSizeOk (t : PispTile) (tcfg : TilingConfig) (i : Nat) : Prop :=
  widthAfterCrop t i ≠ 0 → heightAfterCrop t i ≠ 0 →
    (PISP_BACK_END_MIN_TILE_HEIGHT ≤ heightAfterCrop t i ∧
      PISP_BACK_END_MIN_TILE_HEIGHT ≤ t.resample_in_height.getD i 0 ∧
      PISP_BACK_END_MIN_TILE_HEIGHT ≤ t.output_height.getD i 0) ∧
    (¬rhEdge t tcfg i →
      PISP_BACK_END_MIN_TILE_WIDTH ≤ widthAfterCrop t i ∧
      PISP_BACK_END_MIN_TILE_WIDTH ≤ t.resample_in_width.getD i 0 ∧
      PISP_BACK_END_MIN_TILE_WIDTH ≤ t.output_width.getD i 0)

/-- The branch loop of `check_tiles` for one tile: disabled branches are
skipped (`continue`). -/
def check_tile_branches (tile : PispTile) (rgb_enables : Nat) (tcfg : TilingConfig) :
    List Nat → Except String Unit
  | [] => .ok ()
  | i :: rest =>
    if hasBits rgb_enables (PISP_BE_RGB_ENABLE_OUTPUT i) then
      match check_tile_branch tile tcfg i with
      | .ok () => check_tile_branches tile rgb_enables tcfg rest
      | .error e => .error e
    else check_tile_branches tile rgb_enables tcfg rest

/-- The per-tile body of `check_tiles`. -/
def check_tile (tile : PispTile) (rgb_enables numBranches : Nat) (tcfg : TilingConfig) :
    Except String Unit :=
  if tile.input_width = 0 ∨ tile.input_height = 0 then
    .error "PISP_ASSERT: zero tile inputs should not be possible"
  else if tile.input_width < PISP_BACK_END_MIN_TILE_WIDTH ∨
      tile.input_height < PISP_BACK_END_MIN_TILE_HEIGHT then
    .error "Tile too small at input"
  else check_tile_branches tile rgb_enables tcfg (List.range numBranches)

/-- `check_tiles(tiles, rgb_enables, numBranches, num_tiles, tiling_config)`;
the list holds the first `num_tiles` entries of the tile array. -/
def check_tiles (tiles : List PispTile) (rgb_enables numBranches : Nat)
    (tcfg : TilingConfig) : Except String Unit :=
  match tiles with
  | [] => .ok ()
  | t :: rest =>
    match check_tile t rgb_enables numBranches tcfg with
    | .ok () => check_tiles rest rgb_enables numBranches tcfg
    | .error e => .error e

/-- An all-zero tiling configuration, the base of concrete test
configurations. -/
def TilingConfig.zero : TilingConfig :=
  { input_alignment := ⟨0, 0⟩
    input_image_size := ⟨0, 0⟩
    crop := []
    output_h_mirror := []
    downscale_factor := []
    resample_factor := []
    downscale_image_size := []
    output_image_size := []
    output_max_alignment := []
    output_min_alignment := []
    max_tile_size := ⟨0, 0⟩
    min_tile_size := ⟨0, 0⟩
    resample_enables := 0
    downscale_enables := 0
    compressed_input := false }

/-- An all-zero hardware tile, the base of concrete test tiles. -/
def PispTile.zero : PispTile :=
  { edge := 0, input_addr_offset := 0, input_addr_offset2 := 0
    input_offset_x := 0, input_offset_y := 0, input_width := 0, input_height := 0
    tdn_input_addr_offset := 0, tdn_output_addr_offset := 0
    stitch_input_addr_offset := 0, stitch_output_addr_offset := 0
    lsc_grid_offset_x := 0, lsc_grid_offset_y := 0
    cac_grid_offset_x := 0, cac_grid_offset_y := 0
    crop_x_start := [], crop_x_end := [], crop_y_start := [], crop_y_end := []
    downscale_phase_x := [], downscale_phase_y := []
    resample_in_width := [], resample_in_height := []
    resample_phase_x := [], resample_phase_y := []
    output_offset_x := [], output_offset_y := [], output_width := [], output_height := []
    output_addr_offset := [], output_addr_offset2 := [] }

/-- C2 counterexample tile: a 32x32 input tile whose branch-0 crop leaves
only 8 rows; its output rectangle ends exactly at the bottom (and right) of
the 100x100 branch output image, so it is a bottommost tile. -/
def c2BottomTile : PispTile :=
  { PispTile.zero with
    input_width := 32, input_height := 32
    crop_x_start := [0, 0], crop_x_end := [0, 0]
    crop_y_start := [24, 0], crop_y_end := [0, 0]
    resample_in_width := [32, 0], resample_in_height := [8, 0]
    output_offset_x := [68, 0], output_offset_y := [92, 0]
    output_width := [32, 0], output_height := [8, 0] }

/-- C2 counterexample tiling config: branch 0 output image is 100x100. -/
def c2Tcfg : TilingConfig :=
  { TilingConfig.zero with output_image_size := [⟨100, 100⟩, ⟨0, 0⟩] }

/-- A well-formed tile used as the witness input for the amended C2. -/
def c2GoodTile : PispTile :=
  { PispTile.zero with
    input_width := 32, input_height := 32
    crop_x_start := [0, 0], crop_x_end := [0, 0]
    crop_y_start := [0, 0], crop_y_end := [0, 0]
    resample_in_width := [32, 0], resample_in_height := [32, 0]
    output_offset_x := [0, 0], output_offset_y := [0, 0]
    output_width := [32, 0], output_height := [32, 0] }

/-- Witness tiling config for the amended C2: branch 0 output image 32x32. -/
def c2GoodTcfg : TilingConfig :=
  { TilingConfig.zero with output_image_size := [⟨32, 32⟩, ⟨0, 0⟩] }

/-! ## Claim C9: tile edge flags (`BackEnd::retilePipeline`, lines 757-770) -/

/-- The edge-flag computation for tile `i` of a row-major `nx` by `ny` grid:
`t.edge = 0`, then the four flags are OR'd in under the conditions written in
the source. -/
def tileEdge (nx ny i : Nat) : Nat :=
  (if i < nx then PISP_TOP_EDGE else 0) |||
  (if nx * (ny - 1) ≤ i then PISP_BOTTOM_EDGE else 0) |||
  (if i % nx = 0 then PISP_LEFT_EDGE else 0) |||
  (if (i + 1) % nx = 0 then PISP_RIGHT_EDGE else 0)

/-! ## Claim C5: per-branch tile emission (`BackEnd::retilePipeline`,
lines 780-898) -/

/-- `ScalePrecision` (backend_prepare.cpp). -/
def ScalePrecision : Nat := 12

def PhasePrecision : Nat := 12

def UnityScale : Nat := 1 <<< ScalePrecision

def UnityPhase : Nat := 1 <<< PhasePrecision

def NumPhases : Nat := 16

/-- The per-branch fields of one `pisp_tile` produced for one tile and
branch by `retilePipeline`; phases are listed per plane. -/
structure TileBranchOut where
  crop_x_start : Nat
  crop_x_end : Nat
  crop_y_start : Nat
  crop_y_end : Nat
  resample_in_width : Nat
  resample_in_height : Nat
  output_offset_x : Nat
  output_offset_y : Nat
  output_width : Nat
  output_height : Nat
  downscale_phase_x : List Nat
  downscale_phase_y : List Nat
  resample_phase_x : List Nat
  resample_phase_y : List Nat
deriving Repr, DecidableEq

/-- The all-zero branch record produced by the `memset` and the zero-output
shortcut (with the crop start fields overwritten by the tile input size). -/
def zeroBranchOut (input_width input_height : Nat) : TileBranchOut :=
  { crop_x_start := input_width, crop_x_end := 0
    crop_y_start := input_height, crop_y_end := 0
    resample_in_width := 0, resample_in_height := 0
    output_offset_x := 0, output_offset_y := 0
    output_width := 0, output_height := 0
    downscale_phase_x := [0, 0, 0], downscale_phase_y := [0, 0, 0]
    resample_phase_x := [0, 0, 0], resample_phase_y := [0, 0, 0] }

/-- One downscaler phase (lines 839-845): `UnityPhase` minus the fractional
part of `resample_in_offset * scale_factor`; identical for all three
planes. -/
def downscalePhaseVal (off : Int) (sf : Nat) : Nat :=
  UnityPhase - ((off * (sf : Int)) % (UnityScale : Int)).toNat

/-- One resampler phase (lines 850-864): the phase of the interpolated input
pixel for this output offset, plus the caller-supplied per-plane initial
phase (possibly negative), as stored into the `uint16_t` tile field. -/
def resamplePhaseVal (outOff sf : Nat) (initPhase : Int) : Nat :=
  wrap16 ((((outOff * NumPhases * sf >>> ScalePrecision) % NumPhases) <<< ScalePrecision)
    / NumPhases + initPhase)

/-- The pairwise plane-phase-difference test of lines 872-894. -/
def phaseDiffExceeds (ph : List Nat) (pmax : Nat) : Prop :=
  pmax < ((ph.getD 0 0 : Int) - (ph.getD 1 0 : Int)).natAbs ∨
  pmax < ((ph.getD 1 0 : Int) - (ph.getD 2 0 : Int)).natAbs ∨
  pmax < ((ph.getD 0 0 : Int) - (ph.getD 2 0 : Int)).natAbs

instance (ph : List Nat) (pmax : Nat) : Decidable (phaseDiffExceeds ph pmax) := by
  unfold phaseDiffExceeds
  infer_instance

/-- The per-branch part of the tile conversion in `BackEnd::retilePipeline`
(lines 780-898) for branch `j` of one software tile: the zero-output
shortcut, the crop/resample-size calculation, and the per-plane phases with
their range assertion and the plane-disagreement checks.  `input_width` and
`input_height` are the already-assigned `t.input_width`/`t.input_height`. -/
def retileBranch (c : BeConfig) (ce : BeConfigExtra) (sw : SwTile)
    (input_width input_height : Nat) (j : Nat) : Except String TileBranchOut :=
  if hasBits c.global.rgb_enables (PISP_BE_RGB_ENABLE_OUTPUT j) = true ∧
      ((sw.output.getD j Region.zero).output.x.length = 0 ∨
        (sw.output.getD j Region.zero).output.y.length = 0) then
    -- "If a tile produces no output there's no point sending anything down
    -- this branch, so ensure the crop eats everything and set everything
    -- else to zero."
    .ok (zeroBranchOut input_width input_height)
  else
    let outr := (sw.output.getD j Region.zero).output
    let cropr := sw.crop.getD j Region.zero
    let dsEnabled := hasBits c.global.rgb_enables (PISP_BE_RGB_ENABLE_DOWNSCALE j)
    let rsEnabled := hasBits c.global.rgb_enables (PISP_BE_RGB_ENABLE_RESAMPLE j)
    let downscale_crop : Crop2 :=
      if dsEnabled then (sw.downscale.getD j Region.zero).crop + cropr.crop
      else if rsEnabled then (sw.resample.getD j Region.zero).crop + cropr.crop
      else (sw.output.getD j Region.zero).crop + cropr.crop
    let resample_size : Interval2 :=
      if dsEnabled then (sw.downscale.getD j Region.zero).output
      else ⟨cropr.output.x.subCrop (sw.resample.getD j Region.zero).crop.x,
            cropr.output.y.subCrop (sw.resample.getD j Region.zero).crop.y⟩
    let out_off_x := wrap16 outr.x.offset
    let out_off_y := wrap16 outr.y.offset
    let dsc := c.downscale.getD j ⟨0, 0, 0, 0⟩
    let rsc := c.resample.getD j ⟨0, 0⟩
    let rse := ce.resample.getD j ⟨0, 0, [], []⟩
    let dphx := if dsEnabled then
        (List.range 3).map (fun _ => downscalePhaseVal resample_size.x.offset dsc.scale_factor_h)
      else [0, 0, 0]
    let dphy := if dsEnabled then
        (List.range 3).map (fun _ => downscalePhaseVal resample_size.y.offset dsc.scale_factor_v)
      else [0, 0, 0]
    let rphx := if rsEnabled then
        (List.range 3).map (fun p =>
          resamplePhaseVal out_off_x rsc.scale_factor_h (rse.initial_phase_h.getD p 0))
      else [0, 0, 0]
    let rphy := if rsEnabled then
        (List.range 3).map (fun p =>
          resamplePhaseVal out_off_y rsc.scale_factor_v (rse.initial_phase_v.getD p 0))
      else [0, 0, 0]
    if rsEnabled ∧ ((rphx ++ rphy).any (fun v => decide (2 * UnityPhase - 1 < v))) then
      .error "PISP_ASSERT: resample phase out of range"
    else if rsEnabled ∧
        phaseDiffExceeds rphx ((rsc.scale_factor_h * UnityPhase / 2) >>> ScalePrecision) then
      .error "Resample phase x for tile is > 0.5 pixels on the output dimensions."
    else if rsEnabled ∧
        phaseDiffExceeds rphy ((rsc.scale_factor_v * UnityPhase / 2) >>> ScalePrecision) then
      .error "Resample phase y for tile is > 0.5 pixels on the output dimensions."
    else
      .ok { crop_x_start := wrap16 downscale_crop.x.start
            crop_x_end := wrap16 downscale_crop.x.stop
            crop_y_start := wrap16 downscale_crop.y.start
            crop_y_end := wrap16 downscale_crop.y.stop
            resample_in_width := wrap16 resample_size.x.length
            resample_in_height := wrap16 resample_size.y.length
            output_offset_x := out_off_x
            output_offset_y := out_off_y
            output_width := wrap16 outr.x.length
            output_height := wrap16 outr.y.length
            downscale_phase_x := dphx, downscale_phase_y := dphy
            resample_phase_x := rphx, resample_phase_y := rphy }

/-- An all-zero `BeConfigExtra`. -/
def BeConfigExtra.zero : BeConfigExtra :=
  { lsc := ⟨0, 0⟩, cac := ⟨0, 0⟩
    downscale := [⟨0, 0⟩, ⟨0, 0⟩]
    resample := [⟨0, 0, [], []⟩, ⟨0, 0, [], []⟩]
    crop := [⟨0, 0, 0, 0⟩, ⟨0, 0, 0, 0⟩]
    dirty_flags_bayer := 0, dirty_flags_rgb := 0, dirty_flags_extra := 0 }

/-- An all-zero software tile. -/
def SwTile.zero : SwTile := ⟨Region.zero, [], [], [], []⟩

/-- The configuration used in the C5 witness: only branch-0 output enabled. -/
def c5Cfg : BeConfig :=
  { BeConfig.zero with
    global := { bayer_enables := 0, rgb_enables := PISP_BE_RGB_ENABLE_OUTPUT 0 } }

/-! ## Claim C8: `BackEnd::Prepare` (backend_prepare.cpp lines 995-1036)

The remaining pieces of the preparer are embedded below: `check_stride`,
the finalise functions, smart-resize application, tiling-configuration
construction and per-tile finalisation.  The tiling engine itself
(`tile_pipeline`, whose source `pipeline.cpp` is not in the tree) is a
parameter of the model. -/

/-- Bit-clearing, the C idiom `x &= ~mask`. -/
def clearBits (x mask : Nat) : Nat := x ^^^ (x &&& mask)

/-- The function `check_stride(config)` (backend_prepare.cpp lines 35-50).
The final comparison against the computed minimum only emits a
`PISP_LOG(fatal, ...)` message, which expands to a plain log statement
(`logging.hpp`), so it does not fail. -/
def check_stride (cfg : ImageFormatConfig) : Except String Unit :=
  if hasBits cfg.stride 15 || hasBits cfg.stride2 15 then
    .error "Output stride values not sufficiently aligned"
  else if fmt_wallpaper cfg.format && (hasBits cfg.stride 127 || hasBits cfg.stride2 127) then
    .error "Wallpaper format should have 128-byte aligned rolls"
  else
    .ok ()

/-- `finalise_bayer_rgb_inputs` (lines 52-56). -/
def finalise_bayer_rgb_inputs (cfg : ImageFormatConfig) : Except String Unit :=
  if cfg.width < PISP_BACK_END_MIN_TILE_WIDTH ∨ cfg.height < PISP_BACK_END_MIN_TILE_HEIGHT then
    .error "finalise_bayer_rgb_inputs: input image too small"
  else .ok ()

/-- `finalise_decompression` (lines 152-164). -/
def finalise_decompression (c : BeConfig) : Except String Unit :=
  let fmt := c.input_format.format
  let bayer_enables := c.global.bayer_enables
  if fmt_compressed fmt && !hasBits bayer_enables PISP_BE_BAYER_ENABLE_DECOMPRESS then
    .error "BackEnd::finalise: input compressed but decompression not enabled"
  else if !fmt_compressed fmt && hasBits bayer_enables PISP_BE_BAYER_ENABLE_DECOMPRESS then
    .error "BackEnd::finalise: input uncompressed but decompression enabled"
  else if hasBits bayer_enables PISP_BE_BAYER_ENABLE_DECOMPRESS && !fmt_bps_8 fmt then
    .error "BackEnd::finalise: compressed input is not 8bpp"
  else .ok ()

/-- `check_rawio_format` (lines 167-181): TDN and stitch I/O dimensions must
match the input, auto-filled when unset; a zero stride is computed, a
non-zero one is checked. -/
def check_rawio_format (fmt : ImageFormatConfig) (w h : Nat) :
    Except String ImageFormatConfig := do
  let fmt1 ←
    if fmt.width = 0 ∨ fmt.height = 0 then
      .ok { fmt with width := w, height := h }
    else if fmt.width ≠ w ∨ fmt.height ≠ h then
      .error "BackEnd::finalise: Image dimensions do not match input"
    else
      .ok fmt
  if fmt1.stride = 0 then
    .ok (compute_stride fmt1)
  else do
    check_stride fmt1
    .ok fmt1

/-- `finalise_tdn` (lines 183-235). -/
def finalise_tdn (c : BeConfig) : Except String BeConfig := do
  let be := c.global.bayer_enables
  let tdn_enabled := hasBits be PISP_BE_BAYER_ENABLE_TDN
  let tdn_input_enabled := hasBits be PISP_BE_BAYER_ENABLE_TDN_INPUT
  let tdn_decompress_enabled := hasBits be PISP_BE_BAYER_ENABLE_TDN_DECOMPRESS
  let tdn_compress_enabled := hasBits be PISP_BE_BAYER_ENABLE_TDN_COMPRESS
  let tdn_output_enabled := hasBits be PISP_BE_BAYER_ENABLE_TDN_OUTPUT
  let fmt := c.tdn_output_format.format
  if tdn_enabled && !tdn_output_enabled then
    .error "BackEnd::finalise: TDN output not enabled when TDN enabled"
  else if fmt_compressed fmt && !tdn_compress_enabled then
    .error "BackEnd::finalise: TDN output compressed but compression not enabled"
  else if !fmt_compressed fmt && tdn_compress_enabled then
    .error "BackEnd::finalise: TDN output uncompressed but compression enabled"
  else if tdn_compress_enabled && !fmt_bps_8 fmt then
    .error "BackEnd::finalise: TDN output does not match compression mode"
  else do
    let c ← if tdn_output_enabled then do
        let f ← check_rawio_format c.tdn_output_format c.input_format.width c.input_format.height
        pure { c with tdn_output_format := f }
      else pure c
    let c ← if tdn_input_enabled then do
        let f ← check_rawio_format c.tdn_input_format c.input_format.width c.input_format.height
        pure { c with tdn_input_format := f }
      else pure c
    if !tdn_enabled then
      if tdn_input_enabled then
        .error "BackEnd::finalise: TDN input enabled but TDN not enabled"
      else pure c
    else if c.tdn.reset then
      if tdn_input_enabled then
        .error "BackEnd::finalise: TDN input enabled but TDN being reset"
      else pure c
    else if !tdn_input_enabled then
      .error "BackEnd::finalise: TDN input not enabled but TDN not being reset"
    else do
      let c := if c.tdn_input_format.width = 0 ∧ c.tdn_input_format.height = 0 then
          { c with tdn_input_format := c.tdn_output_format }
        else c
      if fmt_compressed fmt && !tdn_decompress_enabled then
        .error "BackEnd::finalise: TDN input compressed but decompression not enabled"
      else if !fmt_compressed fmt && tdn_decompress_enabled then
        .error "BackEnd::finalise: TDN input uncompressed but decompression enabled"
      else if tdn_compress_enabled && !fmt_bps_8 fmt then
        .error "BackEnd::finalise: TDN output does not match compression mode"
      else pure c

/-- `finalise_stitch` (lines 237-278), ending in the motion-threshold
auto-fill modelled by `finalise_stitch_motion`. -/
def finalise_stitch (c : BeConfig) : Except String BeConfig := do
  let be := c.global.bayer_enables
  let stitch_enabled := hasBits be PISP_BE_BAYER_ENABLE_STITCH
  let stitch_input_enabled := hasBits be PISP_BE_BAYER_ENABLE_STITCH_INPUT
  let stitch_decompress_enabled := hasBits be PISP_BE_BAYER_ENABLE_STITCH_DECOMPRESS
  let stitch_compress_enabled := hasBits be PISP_BE_BAYER_ENABLE_STITCH_COMPRESS
  let stitch_output_enabled := hasBits be PISP_BE_BAYER_ENABLE_STITCH_OUTPUT
  let input_fmt := c.stitch_input_format.format
  let output_fmt := c.stitch_output_format.format
  if stitch_enabled ≠ stitch_input_enabled then
    .error "BackEnd::finalise: stitch and stitch_input should be enabled/disabled together"
  else if stitch_input_enabled && fmt_compressed input_fmt && !stitch_decompress_enabled then
    .error "BackEnd::finalise: stitch output compressed but decompression not enabled"
  else if stitch_input_enabled && !fmt_compressed input_fmt && stitch_decompress_enabled then
    .error "BackEnd::finalise: stitch output uncompressed but decompression enabled"
  else if stitch_output_enabled && fmt_compressed output_fmt && !stitch_compress_enabled then
    .error "BackEnd::finalise: stitch output compressed but compression not enabled"
  else if stitch_output_enabled && !fmt_compressed output_fmt && stitch_compress_enabled then
    .error "BackEnd::finalise: stitch output uncompressed but compression enabled"
  else if stitch_decompress_enabled && !fmt_bps_8 input_fmt then
    .error "BackEnd::finalise: stitch input does not match compression mode"
  else if stitch_compress_enabled && !fmt_bps_8 output_fmt then
    .error "BackEnd::finalise: stitch output does not match compression mode"
  else do
    let c ← if stitch_output_enabled then do
        let f ← check_rawio_format c.stitch_output_format c.input_format.width
          c.input_format.height
        pure { c with stitch_output_format := f }
      else pure c
    let c ← if stitch_input_enabled then do
        let f ← check_rawio_format c.stitch_input_format c.input_format.width
          c.input_format.height
        pure { c with stitch_input_format := f }
      else pure c
    pure { c with stitch :=
      { c.stitch with motion_threshold_recip :=
          finalise_stitch_motion c.stitch.motion_threshold_recip c.stitch.motion_threshold_256 } }

def PISP_BE_LSC_GRID_SIZE : Nat := 32

def PISP_BE_LSC_STEP_PRECISION : Nat := 18

def PISP_BE_CAC_GRID_SIZE : Nat := 8

def PISP_BE_CAC_STEP_PRECISION : Nat := 20

/-- `finalise_lsc` (lines 86-99); the grid-step assertions are modelled as
failures. -/
def finalise_lsc (lsc : LscConfig) (extra : GridExtra) (width height : Nat) :
    Except String LscConfig :=
  let gx := if lsc.grid_step_x = 0 then
      (PISP_BE_LSC_GRID_SIZE <<< PISP_BE_LSC_STEP_PRECISION) / width
    else lsc.grid_step_x
  let gy := if lsc.grid_step_y = 0 then
      (PISP_BE_LSC_GRID_SIZE <<< PISP_BE_LSC_STEP_PRECISION) / height
    else lsc.grid_step_y
  if ((gx : Int) * ((width : Int) + (extra.offset_x : Int) - 1) <
        ((PISP_BE_LSC_GRID_SIZE <<< PISP_BE_LSC_STEP_PRECISION : Nat) : Int)) ∧
      ((gy : Int) * ((height : Int) + (extra.offset_y : Int) - 1) <
        ((PISP_BE_LSC_GRID_SIZE <<< PISP_BE_LSC_STEP_PRECISION : Nat) : Int)) then
    .ok ⟨gx, gy⟩
  else
    .error "PISP_ASSERT: LSC grid step covers the image"

/-- `finalise_cac` (lines 101-113). -/
def finalise_cac (cac : CacConfig) (extra : GridExtra) (width height : Nat) :
    Except String CacConfig :=
  let gx := if cac.grid_step_x = 0 then
      (PISP_BE_CAC_GRID_SIZE <<< PISP_BE_CAC_STEP_PRECISION) / width
    else cac.grid_step_x
  let gy := if cac.grid_step_y = 0 then
      (PISP_BE_CAC_GRID_SIZE <<< PISP_BE_CAC_STEP_PRECISION) / height
    else cac.grid_step_y
  if ((gx : Int) * ((width : Int) + (extra.offset_x : Int) - 1) <
        ((PISP_BE_CAC_GRID_SIZE <<< PISP_BE_CAC_STEP_PRECISION : Nat) : Int)) ∧
      ((gy : Int) * ((height : Int) + (extra.offset_y : Int) - 1) <
        ((PISP_BE_CAC_GRID_SIZE <<< PISP_BE_CAC_STEP_PRECISION : Nat) : Int)) then
    .ok ⟨gx, gy⟩
  else
    .error "PISP_ASSERT: CAC grid step covers the image"

/-- `finalise_resample` (lines 115-128). -/
def finalise_resample (re : ResampleExtra) (width height : Nat) :
    Except String ResampleConfig :=
  let scale_factor_h := ((width - 1) <<< ScalePrecision) / (re.scaled_width - 1)
  let scale_factor_v := ((height - 1) <<< ScalePrecision) / (re.scaled_height - 1)
  if (scale_factor_h < UnityScale / 16 ∨ 16 * UnityScale ≤ scale_factor_h) ∨
      (scale_factor_v < UnityScale / 16 ∨ 16 * UnityScale ≤ scale_factor_v) then
    .error "finalise_resample: Invalid scaling factors (must be < 16x down/upscale)."
  else
    .ok ⟨scale_factor_h, scale_factor_v⟩

/-- `finalise_downscale` (lines 130-150). -/
def finalise_downscale (de : DownscaleExtra) (width height : Nat) :
    Except String DownscaleConfig :=
  let scale_factor_h := (width <<< ScalePrecision) / de.scaled_width
  let scale_factor_v := (height <<< ScalePrecision) / de.scaled_height
  if (scale_factor_h ≠ UnityScale ∧
        (scale_factor_h < 2 * UnityScale ∨ 8 * UnityScale < scale_factor_h)) ∨
      (scale_factor_v ≠ UnityScale ∧
        (scale_factor_v < 2 * UnityScale ∨ 8 * UnityScale < scale_factor_v)) then
    .error "finalise_downscale: Invalid scaling factors (must be 1x or >= 2x && <= 8x)."
  else
    .ok ⟨scale_factor_h, scale_factor_v,
      (de.scaled_width <<< ScalePrecision) / width,
      (de.scaled_height <<< ScalePrecision) / height⟩

/-- `finalise_output` (lines 280-306). -/
def finalise_output (o : OutputFormatConfig) : Except String OutputFormatConfig :=
  let o := if o.hi = 0 then { o with hi := 65535 } else o
  let o := if o.hi2 = 0 then { o with hi2 := 65535 } else o
  if o.image.width < PISP_BACK_END_MIN_TILE_WIDTH ∨
      o.image.height < PISP_BACK_END_MIN_TILE_HEIGHT then
    .error "finalise_output: output image too small"
  else if fmt_sampling_420 o.image.format && hasBits o.image.height 1 then
    .error "finalise_output: 420 image height should be even"
  else if (fmt_sampling_420 o.image.format || fmt_sampling_422 o.image.format) &&
      hasBits o.image.width 1 then
    .error "finalise_output: 420/422 image width should be even"
  else if fmt_wallpaper o.image.format then
    if hasBits o.image.stride 127 || hasBits o.image.stride2 127 then
      .error "finalise_output: wallpaper image stride should be at least 128-byte aligned"
    else .ok o
  else if hasBits o.image.stride 15 || hasBits o.image.stride2 15 then
    .error "finalise_output: image stride should be at least 16-byte aligned"
  else .ok o

/-- The state of a `BackEnd` instance, restricted to the members the
embedded code reads or writes; the variant data (`variant_`) contributes the
branch count, per-branch downscaler availability and the maximum tile
width. -/
structure BackEndState where
  config_max_stripe_height : Nat
  config_max_tile_width : Nat
  num_branches : Nat
  downscaler_available : List Bool
  variant_max_tile_width : Nat
  be_config : BeConfig
  be_config_extra : BeConfigExtra
  retile : Bool
  finalise_tiling : Bool
  tiles : List PispTile
  num_tiles_x : Nat
  num_tiles_y : Nat
  smart_resize : List (Nat × Nat)
  smart_resize_dirty : Nat
deriving Repr, DecidableEq

/-- `BackEnd::getOutputSize` (lines 953-966). -/
def getOutputSize (s : BackEndState) (i : Nat) (ifmt : ImageFormatConfig) : Nat × Nat :=
  let sr := s.smart_resize.getD i (0, 0)
  if sr.1 ≠ 0 ∧ sr.2 ≠ 0 then sr
  else if hasBits s.be_config.global.rgb_enables (PISP_BE_RGB_ENABLE_RESAMPLE i) then
    ((s.be_config_extra.resample.getD i ⟨0, 0, [], []⟩).scaled_width,
      (s.be_config_extra.resample.getD i ⟨0, 0, [], []⟩).scaled_height)
  else if hasBits s.be_config.global.rgb_enables (PISP_BE_RGB_ENABLE_DOWNSCALE i) then
    ((s.be_config_extra.downscale.getD i ⟨0, 0⟩).scaled_width,
      (s.be_config_extra.downscale.getD i ⟨0, 0⟩).scaled_height)
  else if (s.be_config_extra.crop.getD i ⟨0, 0, 0, 0⟩).width ≠ 0 then
    ((s.be_config_extra.crop.getD i ⟨0, 0, 0, 0⟩).width,
      (s.be_config_extra.crop.getD i ⟨0, 0, 0, 0⟩).height)
  else (ifmt.width, ifmt.height)

/-- The default all-zero output-format record. -/
def OutputFormatConfig.zero : OutputFormatConfig := ⟨⟨0, 0, 0, 0, 0⟩, 0, 0, 0, 0, 0⟩

/-- `BackEnd::ComputeOutputImageFormat` (lines 968-993) for one branch,
writing back into `output_format[i].image` as the `Prepare` loop does,
followed by the integral-image test of `Prepare` step 2. -/
def computeOutputImageFormatStep (s : BackEndState) (i : Nat) :
    Except String BackEndState := do
  let ofc := s.be_config.output_format.getD i OutputFormatConfig.zero
  let img ←
    if hasBits s.be_config.global.rgb_enables (PISP_BE_RGB_ENABLE_OUTPUT i) then do
      let wh := getOutputSize s i s.be_config.input_format
      let img : ImageFormatConfig := { ofc.image with width := wh.1, height := wh.2 }
      if img.stride = 0 then
        (pure (compute_stride img) : Except String ImageFormatConfig)
      else do
        check_stride img
        pure img
    else
      (pure { ofc.image with width := 0, height := 0, stride := 0, stride2 := 0 } :
        Except String ImageFormatConfig)
  if hasBits img.format PISP_IMAGE_FORMAT_INTEGRAL_IMAGE then
    .error "Integral images are not supported."
  else
    pure { s with be_config := { s.be_config with
      output_format := s.be_config.output_format.set i { ofc with image := img } } }

/-- The setter `BackEnd::SetDownscale(i, extra)`.  Modelled from the spec:
the setter implementations are not in the source tree; per spec sections 2
and 4.5 every setter stores its fields and marks the block's dirty bit. -/
def SetDownscale (s : BackEndState) (i : Nat) (de : DownscaleExtra) : BackEndState :=
  { s with
    be_config_extra := { s.be_config_extra with
      downscale := s.be_config_extra.downscale.set i de
      dirty_flags_rgb := s.be_config_extra.dirty_flags_rgb ||| PISP_BE_RGB_ENABLE_DOWNSCALE i } }

/-- The setter `BackEnd::SetResample(i, extra)`.  Modelled from the spec,
like `SetDownscale`. -/
def SetResample (s : BackEndState) (i : Nat) (re : ResampleExtra) : BackEndState :=
  { s with
    be_config_extra := { s.be_config_extra with
      resample := s.be_config_extra.resample.set i re
      dirty_flags_rgb := s.be_config_extra.dirty_flags_rgb ||| PISP_BE_RGB_ENABLE_RESAMPLE i } }

/-- One branch of `BackEnd::updateSmartResize` (lines 545-678).  The
resampler filter-coefficient synthesis only writes the coefficient payload,
which is outside the modelled state, so both the trapezoidal and the
table-lookup paths reduce to programming the resampler output size (with
zero initial phases, from the `memset`) and setting the enables. -/
def updateSmartResizeBranch (s : BackEndState) (i : Nat) : BackEndState :=
  let input_width := if (s.be_config_extra.crop.getD i ⟨0, 0, 0, 0⟩).width ≠ 0 then
      (s.be_config_extra.crop.getD i ⟨0, 0, 0, 0⟩).width
    else s.be_config.input_format.width
  let input_height := if (s.be_config_extra.crop.getD i ⟨0, 0, 0, 0⟩).height ≠ 0 then
      (s.be_config_extra.crop.getD i ⟨0, 0, 0, 0⟩).height
    else s.be_config.input_format.height
  if hasBits s.smart_resize_dirty (1 <<< i) ||
      hasBits s.be_config_extra.dirty_flags_extra PISP_BE_DIRTY_CROP then
    let sr := s.smart_resize.getD i (0, 0)
    if sr.1 ≠ 0 ∧ sr.2 ≠ 0 then
      let s1 :=
        match smartResizeDownscale (s.downscaler_available.getD i false)
            input_width input_height sr.1 sr.2 with
        | some wh =>
          let s' := SetDownscale s i ⟨wh.1, wh.2⟩
          { s' with be_config := { s'.be_config with global := { s'.be_config.global with
              rgb_enables := s'.be_config.global.rgb_enables |||
                PISP_BE_RGB_ENABLE_DOWNSCALE i } } }
        | none =>
          { s with be_config := { s.be_config with global := { s.be_config.global with
              rgb_enables := clearBits s.be_config.global.rgb_enables
                (PISP_BE_RGB_ENABLE_DOWNSCALE i) } } }
      let s2 := SetResample s1 i ⟨sr.1, sr.2, [0, 0, 0], [0, 0, 0]⟩
      { s2 with be_config := { s2.be_config with global := { s2.be_config.global with
          rgb_enables := s2.be_config.global.rgb_enables |||
            PISP_BE_RGB_ENABLE_RESAMPLE i } } }
    else s
  else s

/-- `BackEnd::updateSmartResize`: all branches, then clear
`smart_resize_dirty_`. -/
def updateSmartResize (s : BackEndState) : BackEndState :=
  let s' := (List.range s.num_branches).foldl updateSmartResizeBranch s
  { s' with smart_resize_dirty := 0 }

/-- The per-branch body of the `finaliseConfig` loop (lines 487-520). -/
def finaliseConfigBranch (avail : List Bool) (dirty_rgb : Nat) (ce : BeConfigExtra)
    (c : BeConfig) (j : Nat) : Except String BeConfig :=
  if hasBits c.global.rgb_enables (PISP_BE_RGB_ENABLE_OUTPUT j) then do
    -- crop is enabled when it contains a non-zero width/height; as in the
    -- source, the height too is selected by the crop WIDTH being non-zero
    let w := if (ce.crop.getD j ⟨0, 0, 0, 0⟩).width ≠ 0 then
        (ce.crop.getD j ⟨0, 0, 0, 0⟩).width
      else c.input_format.width
    let h := if (ce.crop.getD j ⟨0, 0, 0, 0⟩).width ≠ 0 then
        (ce.crop.getD j ⟨0, 0, 0, 0⟩).height
      else c.input_format.height
    let c ←
      if hasBits dirty_rgb (PISP_BE_RGB_ENABLE_DOWNSCALE j) then
        if avail.getD j false then do
          let dc ← finalise_downscale (ce.downscale.getD j ⟨0, 0⟩) w h
          pure { c with downscale := c.downscale.set j dc }
        else
          .error ("Downscale is not available in output branch " ++ toString j)
      else pure c
    let w := if hasBits c.global.rgb_enables (PISP_BE_RGB_ENABLE_DOWNSCALE j) then
        (ce.downscale.getD j ⟨0, 0⟩).scaled_width
      else w
    let h := if hasBits c.global.rgb_enables (PISP_BE_RGB_ENABLE_DOWNSCALE j) then
        (ce.downscale.getD j ⟨0, 0⟩).scaled_height
      else h
    let c ←
      if hasBits dirty_rgb (PISP_BE_RGB_ENABLE_RESAMPLE j) then do
        let rc ← finalise_resample (ce.resample.getD j ⟨0, 0, [], []⟩) w h
        pure { c with resample := c.resample.set j rc }
      else pure c
    if hasBits dirty_rgb (PISP_BE_RGB_ENABLE_OUTPUT j) then do
      let oc ← finalise_output (c.output_format.getD j OutputFormatConfig.zero)
      pure { c with output_format := c.output_format.set j oc }
    else pure c
  else pure c

/-- The branch loop of `finaliseConfig`. -/
def finaliseConfigBranches (avail : List Bool) (dirty_rgb : Nat) (ce : BeConfigExtra) :
    BeConfig → List Nat → Except String BeConfig
  | c, [] => .ok c
  | c, j :: rest => do
    let c' ← finaliseConfigBranch avail dirty_rgb ce c j
    finaliseConfigBranches avail dirty_rgb ce c' rest

/-- `BackEnd::finaliseConfig` (lines 449-537). -/
def finaliseConfig (s : BackEndState) : Except String BackEndState := do
  let ce := s.be_config_extra
  let c0 := s.be_config
  let dirty_flags_bayer := ce.dirty_flags_bayer &&& c0.global.bayer_enables
  let dirty_flags_rgb := ce.dirty_flags_rgb &&& c0.global.rgb_enables
  if hasBits dirty_flags_bayer PISP_BE_BAYER_ENABLE_INPUT ||
      hasBits dirty_flags_rgb PISP_BE_RGB_ENABLE_INPUT then
    finalise_bayer_rgb_inputs c0.input_format
  if hasBits dirty_flags_bayer PISP_BE_BAYER_ENABLE_INPUT then
    finalise_inputs c0
  if hasBits dirty_flags_bayer (PISP_BE_BAYER_ENABLE_INPUT ||| PISP_BE_BAYER_ENABLE_DECOMPRESS) then
    finalise_decompression c0
  let c1 ←
    if hasBits ce.dirty_flags_bayer
        (PISP_BE_BAYER_ENABLE_TDN ||| PISP_BE_BAYER_ENABLE_TDN_INPUT |||
          PISP_BE_BAYER_ENABLE_TDN_DECOMPRESS ||| PISP_BE_BAYER_ENABLE_TDN_COMPRESS |||
          PISP_BE_BAYER_ENABLE_TDN_OUTPUT) then
      finalise_tdn c0
    else pure c0
  let c2 ←
    if hasBits ce.dirty_flags_bayer
        (PISP_BE_BAYER_ENABLE_STITCH ||| PISP_BE_BAYER_ENABLE_STITCH_INPUT |||
          PISP_BE_BAYER_ENABLE_STITCH_DECOMPRESS ||| PISP_BE_BAYER_ENABLE_STITCH_COMPRESS |||
          PISP_BE_BAYER_ENABLE_STITCH_OUTPUT) then
      finalise_stitch c1
    else pure c1
  let c3 ←
    if hasBits dirty_flags_bayer PISP_BE_BAYER_ENABLE_LSC then do
      let l ← finalise_lsc c2.lsc ce.lsc c2.input_format.width c2.input_format.height
      pure { c2 with lsc := l }
    else pure c2
  let c4 ←
    if hasBits dirty_flags_bayer PISP_BE_BAYER_ENABLE_CAC then do
      let l ← finalise_cac c3.cac ce.cac c3.input_format.width c3.input_format.height
      pure { c3 with cac := l }
    else pure c3
  let c5 ← finaliseConfigBranches s.downscaler_available dirty_flags_rgb ce c4
    (List.range s.num_branches)
  -- Finally check for a sane collection of enable bits.
  if ¬(hasBits c5.global.bayer_enables PISP_BE_BAYER_ENABLE_INPUT = true ∨
      c5.global.bayer_enables = 0) then
    .error "BackEnd::finalise: Bayer input disabled but Bayer pipe active"
  else if (if hasBits c5.global.bayer_enables PISP_BE_BAYER_ENABLE_INPUT then 1 else 0) +
      (if hasBits c5.global.rgb_enables PISP_BE_RGB_ENABLE_INPUT then 1 else 0) ≠ 1 then
    .error "BackEnd::finalise: exactly one of Bayer and RGB inputs should be enabled"
  else
    let output_enables := (c5.global.bayer_enables &&&
        (PISP_BE_BAYER_ENABLE_TDN_OUTPUT ||| PISP_BE_BAYER_ENABLE_STITCH_OUTPUT)) |||
      ((List.range s.num_branches).foldl (fun acc i =>
        acc ||| (c5.global.rgb_enables &&& PISP_BE_RGB_ENABLE_OUTPUT i)) 0)
    if output_enables = 0 then
      .error "BackEnd::finalise: PiSP not configured to do anything"
    else
      pure { s with be_config := c5 }

/-- `MaxStripeHeight` (backend_prepare.cpp line 24). -/
def MaxStripeHeight : Nat := 3072

/-- `get_pixel_alignment(format, byte_alignment)` (lines 369-387). -/
def get_pixel_alignment (format byte_alignment : Nat) : Nat :=
  let alignment_pixels :=
    if fmt_bps_16 format then byte_alignment / 2
    else if fmt_bps_10 format then byte_alignment * 3 / 4
    else if fmt_bpp_32 format then byte_alignment / 4
    else byte_alignment
  if fmt_planar format && !fmt_sampling_444 format then alignment_pixels * 2
  else if fmt_interleaved format && (fmt_sampling_422 format || fmt_sampling_420 format) then
    alignment_pixels / 2
  else alignment_pixels

/-- The local `lcm` of backend_prepare.cpp (lines 389-395): `a / gcd(a,b) * b`. -/
def lcmC (a b : Nat) : Nat := a / Nat.gcd a b * b

/-- `calculate_input_alignment(config)` (lines 397-428). -/
def calculate_input_alignment (c : BeConfig) : Length2 :=
  if hasBits c.global.rgb_enables PISP_BE_RGB_ENABLE_INPUT then
    ⟨(lcmC (get_pixel_alignment c.input_format.format PISP_BACK_END_INPUT_ALIGN) 2 : Nat),
      if fmt_sampling_420 c.input_format.format then 2 else 1⟩
  else
    let bayer_enables := c.global.bayer_enables
    let pa := get_pixel_alignment c.input_format.format PISP_BACK_END_INPUT_ALIGN
    let pa := if fmt_compressed c.input_format.format ||
        (hasBits bayer_enables PISP_BE_BAYER_ENABLE_TDN_INPUT &&
          fmt_compressed c.tdn_input_format.format) ||
        (hasBits bayer_enables PISP_BE_BAYER_ENABLE_STITCH_INPUT &&
          fmt_compressed c.stitch_input_format.format) then
        lcmC pa PISP_BACK_END_COMPRESSED_ALIGN
      else pa
    let pa := if hasBits bayer_enables PISP_BE_BAYER_ENABLE_TDN_OUTPUT then
        lcmC pa (get_pixel_alignment c.tdn_output_format.format PISP_BACK_END_OUTPUT_MIN_ALIGN)
      else pa
    let pa := if hasBits bayer_enables PISP_BE_BAYER_ENABLE_STITCH_OUTPUT then
        lcmC pa (get_pixel_alignment c.stitch_output_format.format PISP_BACK_END_OUTPUT_MIN_ALIGN)
      else pa
    ⟨(pa : Nat), 2⟩

/-- `calculate_output_alignment(format, align)` (lines 430-435). -/
def calculate_output_alignment (format align : Nat) : Length2 :=
  ⟨(get_pixel_alignment format align : Nat), if fmt_sampling_420 format then 2 else 1⟩

/-- `compute_addr_offset(config, x, y, addr_offset, addr_offset2)` from
`pisp_utils.cpp` (lines 121-166), returning both offsets; `prior2` is the
value `*addr_offset2` keeps when the function does not write it (interleaved
non-wallpaper formats).  The 10-bit wallpaper multiple-of-3 `PISP_ASSERT` is
a debug-build abort and is not modelled. -/
def compute_addr_offset (cfg : ImageFormatConfig) (x y : Nat) (prior2 : Nat) : Nat × Nat :=
  if fmt_wallpaper cfg.format then
    let pixels_in_roll :=
      if fmt_bps_8 cfg.format then PISP_WALLPAPER_WIDTH
      else if fmt_bps_16 cfg.format then PISP_WALLPAPER_WIDTH / 2
      else PISP_WALLPAPER_WIDTH / 4 * 3
    let pixel_offset_in_roll := x % pixels_in_roll
    let pixel_offset_in_bytes :=
      if fmt_bps_8 cfg.format then pixel_offset_in_roll
      else if fmt_bps_16 cfg.format then pixel_offset_in_roll * 2
      else pixel_offset_in_roll / 3 * 4
    let num_rolls := x / pixels_in_roll
    let a1 := num_rolls * cfg.stride + y * PISP_WALLPAPER_WIDTH + pixel_offset_in_bytes
    let a2 := if fmt_sampling_420 cfg.format then
        num_rolls * cfg.stride2 + y / 2 * PISP_WALLPAPER_WIDTH + pixel_offset_in_bytes
      else a1
    (a1, a2)
  else
    let x_byte_offset := compute_x_offset cfg.format x
    let a1 := y * cfg.stride + x_byte_offset
    if !fmt_interleaved cfg.format then
      let y2 := if fmt_sampling_420 cfg.format then y / 2 else y
      let xb2 := if fmt_planar cfg.format && !fmt_sampling_444 cfg.format then
          x_byte_offset / 2
        else x_byte_offset
      (a1, y2 * cfg.stride2 + xb2)
    else (a1, prior2)

/-- The branch loop of the tile conversion, collecting one `TileBranchOut`
per branch. -/
def retileBranchLoop (c : BeConfig) (ce : BeConfigExtra) (sw : SwTile) (iw ih : Nat) :
    List Nat → Except String (List TileBranchOut)
  | [] => .ok []
  | j :: rest => do
    let b ← retileBranch c ce sw iw ih j
    let bs ← retileBranchLoop c ce sw iw ih rest
    pure (b :: bs)

/-- The conversion of one software tile into a `pisp_tile`
(`BackEnd::retilePipeline` loop body, lines 757-898): the `memset`, the edge
flags, the input fields, the Bayer-pipe consistency check and the per-branch
conversion. -/
def retileTile (c : BeConfig) (ce : BeConfigExtra) (numBranches nx ny : Nat)
    (sw : SwTile) (i : Nat) : Except String PispTile := do
  if sw.input.output ≠ sw.input.input then
    .error "BackEnd::retilePipeline: tiling error in Bayer pipe"
  else
    let iw := wrap16 sw.input.input.x.length
    let ih := wrap16 sw.input.input.y.length
    let bs ← retileBranchLoop c ce sw iw ih (List.range numBranches)
    pure { PispTile.zero with
      edge := tileEdge nx ny i
      input_offset_x := wrap16 sw.input.input.x.offset
      input_offset_y := wrap16 sw.input.input.y.offset
      input_width := iw
      input_height := ih
      crop_x_start := bs.map (fun b => b.crop_x_start)
      crop_x_end := bs.map (fun b => b.crop_x_end)
      crop_y_start := bs.map (fun b => b.crop_y_start)
      crop_y_end := bs.map (fun b => b.crop_y_end)
      downscale_phase_x := bs.map (fun b => b.downscale_phase_x)
      downscale_phase_y := bs.map (fun b => b.downscale_phase_y)
      resample_in_width := bs.map (fun b => b.resample_in_width)
      resample_in_height := bs.map (fun b => b.resample_in_height)
      resample_phase_x := bs.map (fun b => b.resample_phase_x)
      resample_phase_y := bs.map (fun b => b.resample_phase_y)
      output_offset_x := bs.map (fun b => b.output_offset_x)
      output_offset_y := bs.map (fun b => b.output_offset_y)
      output_width := bs.map (fun b => b.output_width)
      output_height := bs.map (fun b => b.output_height) }

/-- The tile loop of `retilePipeline`, converting tiles `0 .. nx*ny - 1`. -/
def retileTileLoop (c : BeConfig) (ce : BeConfigExtra) (numBranches nx ny : Nat)
    (swTiles : List SwTile) : List Nat → Except String (List PispTile)
  | [] => .ok []
  | i :: rest => do
    let t ← retileTile c ce numBranches nx ny (swTiles.getD i SwTile.zero) i
    let ts ← retileTileLoop c ce numBranches nx ny swTiles rest
    pure (t :: ts)

/-- The per-tile body of `BackEnd::finaliseTiling` (lines 900-951):
address offsets, grid offsets, and the mirror-transform fix-ups. -/
def finaliseTile (c : BeConfig) (ce : BeConfigExtra) (numBranches : Nat)
    (t : PispTile) : PispTile :=
  let a := compute_addr_offset c.input_format t.input_offset_x t.input_offset_y 0
  let t := { t with
    input_addr_offset := a.1
    input_addr_offset2 := a.2
    tdn_input_addr_offset :=
      (compute_addr_offset c.tdn_input_format t.input_offset_x t.input_offset_y 0).1
    tdn_output_addr_offset :=
      (compute_addr_offset c.tdn_output_format t.input_offset_x t.input_offset_y 0).1
    stitch_input_addr_offset :=
      (compute_addr_offset c.stitch_input_format t.input_offset_x t.input_offset_y 0).1
    stitch_output_addr_offset :=
      (compute_addr_offset c.stitch_output_format t.input_offset_x t.input_offset_y 0).1 }
  let t := if hasBits c.global.bayer_enables PISP_BE_BAYER_ENABLE_LSC then
      { t with
        lsc_grid_offset_x := (t.input_offset_x + ce.lsc.offset_x) * c.lsc.grid_step_x
        lsc_grid_offset_y := (t.input_offset_y + ce.lsc.offset_y) * c.lsc.grid_step_y }
    else t
  let t := if hasBits c.global.bayer_enables PISP_BE_BAYER_ENABLE_CAC then
      { t with
        cac_grid_offset_x := (t.input_offset_x + ce.cac.offset_x) * c.cac.grid_step_x
        cac_grid_offset_y := (t.input_offset_y + ce.cac.offset_y) * c.cac.grid_step_y }
    else t
  (List.range numBranches).foldl (fun t j =>
    let ofc := c.output_format.getD j OutputFormatConfig.zero
    let ox0 := t.output_offset_x.getD j 0
    let oy0 := t.output_offset_y.getD j 0
    let ox := if hasBits ofc.transform PISP_BE_TRANSFORM_HFLIP then
        wrap16 ((ofc.image.width : Int) - (ox0 : Int) - (t.output_width.getD j 0 : Int))
      else ox0
    let oy := if hasBits ofc.transform PISP_BE_TRANSFORM_VFLIP then
        wrap16 ((ofc.image.height : Int) - (oy0 : Int) - 1)
      else oy0
    let o := compute_addr_offset ofc.image ox oy (t.output_addr_offset2.getD j 0)
    { t with
      output_offset_x := t.output_offset_x.set j ox
      output_offset_y := t.output_offset_y.set j oy
      output_addr_offset := t.output_addr_offset.set j o.1
      output_addr_offset2 := t.output_addr_offset2.set j o.2 }) t

/-- `BackEnd::finaliseTiling`: update the first `num_tiles_x * num_tiles_y`
tiles in place. -/
def finaliseTiling (s : BackEndState) : BackEndState :=
  let n := s.num_tiles_x * s.num_tiles_y
  { s with tiles :=
      (s.tiles.take n).map (finaliseTile s.be_config s.be_config_extra s.num_branches) ++
        s.tiles.drop n }

/-- The `TilingConfig` filled in by `BackEnd::updateTiles` (lines 687-731). -/
def buildTilingConfig (s : BackEndState) : TilingConfig :=
  let c := s.be_config
  let ce := s.be_config_extra
  { input_alignment := calculate_input_alignment c
    input_image_size := ⟨(c.input_format.width : Int), (c.input_format.height : Int)⟩
    crop := (List.range s.num_branches).map (fun i =>
      let cr := ce.crop.getD i ⟨0, 0, 0, 0⟩
      let iv : Interval2 := ⟨⟨(cr.offset_x : Int), (cr.width : Int)⟩,
        ⟨(cr.offset_y : Int), (cr.height : Int)⟩⟩
      if iv.x.length = 0 ∨ iv.y.length = 0 then
        ⟨⟨0, (c.input_format.width : Int)⟩, ⟨0, (c.input_format.height : Int)⟩⟩
      else iv)
    output_h_mirror := (List.range s.num_branches).map (fun i =>
      hasBits (c.output_format.getD i OutputFormatConfig.zero).transform PISP_BE_TRANSFORM_HFLIP)
    downscale_factor := (List.range s.num_branches).map (fun i =>
      ⟨((c.downscale.getD i ⟨0, 0, 0, 0⟩).scale_factor_h : Int),
        ((c.downscale.getD i ⟨0, 0, 0, 0⟩).scale_factor_v : Int)⟩)
    resample_factor := (List.range s.num_branches).map (fun i =>
      ⟨((c.resample.getD i ⟨0, 0⟩).scale_factor_h : Int),
        ((c.resample.getD i ⟨0, 0⟩).scale_factor_v : Int)⟩)
    downscale_image_size := (List.range s.num_branches).map (fun i =>
      ⟨((ce.downscale.getD i ⟨0, 0⟩).scaled_width : Int),
        ((ce.downscale.getD i ⟨0, 0⟩).scaled_height : Int)⟩)
    output_image_size := (List.range s.num_branches).map (fun i =>
      ⟨((c.output_format.getD i OutputFormatConfig.zero).image.width : Int),
        ((c.output_format.getD i OutputFormatConfig.zero).image.height : Int)⟩)
    output_max_alignment := (List.range s.num_branches).map (fun i =>
      calculate_output_alignment (c.output_format.getD i OutputFormatConfig.zero).image.format
        PISP_BACK_END_OUTPUT_MAX_ALIGN)
    output_min_alignment := (List.range s.num_branches).map (fun i =>
      calculate_output_alignment (c.output_format.getD i OutputFormatConfig.zero).image.format
        PISP_BACK_END_OUTPUT_MIN_ALIGN)
    max_tile_size := ⟨(if s.config_max_tile_width ≠ 0 then (s.config_max_tile_width : Int)
        else (s.variant_max_tile_width : Int)),
      (if s.config_max_stripe_height ≠ 0 then (s.config_max_stripe_height : Int)
        else (MaxStripeHeight : Int))⟩
    min_tile_size := ⟨(PISP_BACK_END_MIN_TILE_WIDTH : Int), (PISP_BACK_END_MIN_TILE_HEIGHT : Int)⟩
    resample_enables := c.global.rgb_enables / PISP_BE_RGB_ENABLE_RESAMPLE0
    downscale_enables := c.global.rgb_enables / PISP_BE_RGB_ENABLE_DOWNSCALE0
    compressed_input := false }

/-- `BackEnd::updateTiles` (lines 683-743).  The tiling engine
(`tile_pipeline`, whose source is not in the tree) is a parameter returning
the software tiles and the grid size, or a tiling failure. -/
def updateTiles (engine : TilingConfig → Except String (List SwTile × Nat × Nat))
    (s : BackEndState) : Except String BackEndState := do
  let s ←
    if s.retile then do
      let tiling_config := buildTilingConfig s
      let s := { s with retile := false }
      let r ← engine tiling_config
      let tiles ← retileTileLoop s.be_config s.be_config_extra s.num_branches r.2.1 r.2.2
        r.1 (List.range (r.2.1 * r.2.2))
      check_tiles tiles s.be_config.global.rgb_enables s.num_branches tiling_config
      pure { s with
        tiles := tiles
        num_tiles_x := r.2.1
        num_tiles_y := r.2.2
        finalise_tiling := true }
    else pure s
  if s.finalise_tiling then
    pure { (finaliseTiling s) with finalise_tiling := false }
  else
    pure s

/-- The payload written to a non-null `pisp_be_tiles_config` pointer. -/
structure TilesConfigOut where
  config : BeConfig
  tiles : List PispTile
  num_tiles : Nat
deriving Repr, DecidableEq

/-- Step 5 of `Prepare`: clear the three dirty-flag groups. -/
def clearDirtyFlags (s : BackEndState) : BackEndState :=
  { s with be_config_extra := { s.be_config_extra with
      dirty_flags_bayer := 0, dirty_flags_rgb := 0, dirty_flags_extra := 0 } }

/-- Step 4 of `Prepare`: the output payload assembled from the state. -/
def emitTilesConfig (s : BackEndState) : TilesConfigOut :=
  { config := s.be_config
    tiles := s.tiles.take (s.num_tiles_x * s.num_tiles_y)
    num_tiles := s.num_tiles_x * s.num_tiles_y }

/-- The output-format loop of `Prepare` step 2. -/
def computeOutputFormatsLoop : BackEndState → List Nat → Except String BackEndState
  | s, [] => .ok s
  | s, i :: rest => do
    let s' ← computeOutputImageFormatStep s i
    computeOutputFormatsLoop s' rest

/-- Steps 1-3 of `BackEnd::Prepare` (lines 995-1024): input-enable sanity
checks, per-branch output-format computation, smart-resize resolution,
finalisation and tiling update — everything except the output write-back. -/
def prepareCommon (engine : TilingConfig → Except String (List SwTile × Nat × Nat))
    (s : BackEndState) : Except String BackEndState := do
  if ¬hasBits s.be_config.global.bayer_enables PISP_BE_BAYER_ENABLE_INPUT ∧
      ¬hasBits s.be_config.global.rgb_enables PISP_BE_RGB_ENABLE_INPUT then
    .error "BackEnd::preFrameUpdate: neither Bayer nor RGB inputs are enabled"
  else if hasBits s.be_config.global.bayer_enables PISP_BE_BAYER_ENABLE_INPUT ∧
      hasBits s.be_config.global.rgb_enables PISP_BE_RGB_ENABLE_INPUT then
    .error "BackEnd::preFrameUpdate: both Bayer and RGB inputs are enabled"
  else do
    let s ← computeOutputFormatsLoop s (List.range s.num_branches)
    let s := updateSmartResize s
    let s ← finaliseConfig s
    updateTiles engine s

/-- `BackEnd::Prepare(config)` (lines 995-1036): `writeConfig = false` models
a null `config` pointer.  The output payload and the dirty-flag clearing of
step 5 happen only for a non-null pointer. -/
def Prepare (engine : TilingConfig → Except String (List SwTile × Nat × Nat))
    (writeConfig : Bool) (s : BackEndState) :
    Except String (BackEndState × Option TilesConfigOut) :=
  match prepareCommon engine s with
  | .error e => .error e
  | .ok s' =>
    if writeConfig then .ok (clearDirtyFlags s', some (emitTilesConfig s'))
    else .ok (s', none)

/-- The RGB888 descriptor (three interleaved 8-bit channels, 4:4:4). -/
def rgb888Fmt : Nat := PISP_IMAGE_FORMAT_THREE_CHANNEL

/-- A trivial tiling engine; the C8 concrete state has `retile_ = false`, so
it is never invoked. -/
def c8Engine : TilingConfig → Except String (List SwTile × Nat × Nat) :=
  fun _ => .ok ([], 0, 0)

/-- The C8 concrete state: RGB input 64x64, branch-0 output enabled with an
unset stride, a pending smart-resize target of 40x40 on branch 0, all dirty
flags clear, and no retile pending. -/
def c8State : BackEndState :=
  { config_max_stripe_height := 0
    config_max_tile_width := 0
    num_branches := 2
    downscaler_available := [true, true]
    variant_max_tile_width := 640
    be_config := { BeConfig.zero with
      global := { bayer_enables := 0
                  rgb_enables := PISP_BE_RGB_ENABLE_INPUT ||| PISP_BE_RGB_ENABLE_OUTPUT 0 }
      input_format := ⟨64, 64, rgb888Fmt, 192, 0⟩
      output_format := [⟨⟨0, 0, rgb888Fmt, 0, 0⟩, 0, 0, 0, 0, 0⟩, OutputFormatConfig.zero] }
    be_config_extra := BeConfigExtra.zero
    retile := false
    finalise_tiling := false
    tiles := []
    num_tiles_x := 0
    num_tiles_y := 0
    smart_resize := [(40, 40), (0, 0)]
    smart_resize_dirty := 1 }

/-- The state after the shared pipeline of `Prepare` on `c8State`. -/
def c8AfterState : BackEndState :=
  match Prepare c8Engine false c8State with
  | .ok p => p.1
  | .error _ => c8State


/-! ## Theorems -/

theorem alignN_ge (x a : Nat) (ha : 0 < a) : x ≤ alignN x a := by
  have h := Nat.lt_div_mul_add (a := x + a - 1) ha
  unfold alignN
  omega

theorem alignN_dvd (x a : Nat) : a ∣ alignN x a :=
  ⟨(x + a - 1) / a, Nat.mul_comm _ _⟩

theorem alignN_of_dvd (x a : Nat) (ha : 0 < a) (h : a ∣ x) : alignN x a = x := by
  obtain ⟨k, rfl⟩ := h
  unfold alignN
  rw [Nat.add_sub_assoc ha, Nat.add_comm, Nat.add_mul_div_left _ _ ha,
    Nat.div_eq_of_lt (by omega), Nat.zero_add, Nat.mul_comm]

theorem alignN_idem (x a : Nat) (ha : 0 < a) : alignN (alignN x a) a = alignN x a :=
  alignN_of_dvd _ _ ha (alignN_dvd x a)

theorem computed_stride_withStrides (c : ImageFormatConfig) (s s2 : Nat) :
    computed_stride (withStrides c s s2) = computed_stride c := rfl

theorem strideBase_ge (c : ImageFormatConfig) : computed_stride c ≤ strideBase c := by
  unfold strideBase
  split <;> omega

theorem strideBase_zero (c : ImageFormatConfig) (h : strideBase c = 0) :
    computed_stride c = 0 := by
  unfold strideBase at h
  split at h <;> omega

theorem strideBase_withStrides (c : ImageFormatConfig) (s s2 : Nat)
    (h1 : computed_stride c ≤ s) (h2 : s = 0 → computed_stride c = 0) :
    strideBase (withStrides c s s2) = s := by
  unfold strideBase
  rw [computed_stride_withStrides]
  have hs : (withStrides c s s2).stride = s := rfl
  rw [hs]
  split <;> omega

theorem withStrides_absorb (c : ImageFormatConfig) (s s2 t t2 : Nat) :
    withStrides (withStrides c s s2) t t2 = withStrides c t t2 := rfl

theorem compute_stride_wallpaper (c : ImageFormatConfig) (hw : fmt_wallpaper c.format = true) :
    compute_stride c =
      withStrides c (c.height * PISP_WALLPAPER_WIDTH)
        (if fmt_sampling_420 c.format then c.height * PISP_WALLPAPER_WIDTH / 2
         else c.height * PISP_WALLPAPER_WIDTH) := by
  unfold compute_stride compute_stride_align withStrides
  simp [hw]

theorem compute_stride_hog (c : ImageFormatConfig) (hw : fmt_wallpaper c.format = false)
    (hh : fmt_hog c.format = true) :
    compute_stride c = withStrides c (strideBase c) 0 := by
  unfold compute_stride compute_stride_align withStrides
  simp [hw, hh]

theorem compute_stride_normal (c : ImageFormatConfig) (hw : fmt_wallpaper c.format = false)
    (hh : fmt_hog c.format = false) :
    compute_stride c =
      withStrides c (alignN (strideBase c) 16)
        (alignN (stride2Base c.format (strideBase c)) 16) := by
  unfold compute_stride compute_stride_align withStrides PISP_BACK_END_OUTPUT_MIN_ALIGN
  simp [hw, hh]

theorem withStrides_format (c : ImageFormatConfig) (s s2 : Nat) :
    (withStrides c s s2).format = c.format := rfl

theorem withStrides_height (c : ImageFormatConfig) (s s2 : Nat) :
    (withStrides c s s2).height = c.height := rfl

/-- The stride produced for a non-wallpaper, non-HoG format is at least the
computed minimum and vanishes only when that minimum is zero; this is what
makes a further application of `compute_stride` keep it. -/
theorem strideBase_compute_stride (c : ImageFormatConfig)
    (hw : fmt_wallpaper c.format = false) (hh : fmt_hog c.format = false) :
    strideBase (compute_stride c) = alignN (strideBase c) 16 := by
  rw [compute_stride_normal c hw hh]
  apply strideBase_withStrides
  · exact le_trans (strideBase_ge c) (alignN_ge _ _ (by norm_num))
  · intro h0
    have hb : strideBase c = 0 := by
      have := alignN_ge (strideBase c) 16 (by norm_num)
      omega
    exact strideBase_zero c hb

/-- C6: the claim `compute_stride(compute_stride(c)) = compute_stride(c)` fails
at a fully-planar YUV 4:2:0 configuration of width 33: the first pass yields
`stride = 48, stride2 = 16`, but the second pass recomputes
`stride2 = align(48 / 2, 16) = 32`. -/
theorem c6_counterexample : compute_stride (compute_stride c6Config) ≠ compute_stride c6Config := by
  decide

/-- Claim C6 (amended): stride finalisation is idempotent from the second
application onwards: `compute_stride ∘ compute_stride` is idempotent, i.e.
a third application changes nothing.  (Idempotence of a single application
fails only in that the second application can enlarge `stride2` for
fully-planar 4:2:0/4:2:2 formats, as in the counterexample.) -/
theorem c6_compute_stride_squared_idempotent (c : ImageFormatConfig) :
    compute_stride (compute_stride (compute_stride c)) = compute_stride (compute_stride c) := by
  by_cases hw : fmt_wallpaper c.format
  · -- Wallpaper formats: the strides depend only on height and format, so a
    -- single application is already idempotent.
    have h1 := compute_stride_wallpaper c hw
    have h2 := compute_stride_wallpaper (withStrides c (c.height * PISP_WALLPAPER_WIDTH)
      (if fmt_sampling_420 c.format then c.height * PISP_WALLPAPER_WIDTH / 2
       else c.height * PISP_WALLPAPER_WIDTH)) hw
    rw [withStrides_absorb] at h2
    rw [h1, h2]
    exact h2
  · by_cases hh : fmt_hog c.format
    · -- HoG formats: `strideBase` is already a fixed point, so again a single
      -- application is idempotent.
      have hw' : fmt_wallpaper c.format = false := by simpa using hw
      have h1 := compute_stride_hog c hw' hh
      have h2 := compute_stride_hog (withStrides c (strideBase c) 0) hw' hh
      rw [strideBase_withStrides c _ _ (strideBase_ge c) (strideBase_zero c),
        withStrides_absorb] at h2
      rw [h1, h2]
      exact h2
    · -- The general case: the effective base stride stabilises at
      -- `alignN (strideBase c) 16` after the first application.
      have hw' : fmt_wallpaper c.format = false := by simpa using hw
      have hh' : fmt_hog c.format = false := by simpa using hh
      have hcA : computed_stride c ≤ alignN (strideBase c) 16 :=
        le_trans (strideBase_ge c) (alignN_ge _ _ (by norm_num))
      have hA0 : alignN (strideBase c) 16 = 0 → computed_stride c = 0 := by
        intro h
        have := alignN_ge (strideBase c) 16 (by norm_num)
        exact strideBase_zero c (by omega)
      have h1 := compute_stride_normal c hw' hh'
      -- First application: strides become `A := alignN (strideBase c) 16` and
      -- `alignN (stride2Base c.format (strideBase c)) 16`.
      have h2 := compute_stride_normal (withStrides c (alignN (strideBase c) 16)
        (alignN (stride2Base c.format (strideBase c)) 16)) hw' hh'
      rw [strideBase_withStrides c _ _ hcA hA0, alignN_idem _ _ (by norm_num),
        withStrides_absorb] at h2
      simp only [withStrides_format] at h2
      -- Second and later applications: strides become `A` and
      -- `alignN (stride2Base c.format A) 16`, a fixed point.
      have h3 := compute_stride_normal (withStrides c (alignN (strideBase c) 16)
        (alignN (stride2Base c.format (alignN (strideBase c) 16)) 16)) hw' hh'
      rw [strideBase_withStrides c _ _ hcA hA0, alignN_idem _ _ (by norm_num),
        withStrides_absorb] at h3
      simp only [withStrides_format] at h3
      rw [h1, h2, h3]

/-- Claim C10: `get_pisp_image_format(name)` returns 0 for every name not
present in the format table, and the two conversions are mutually inverse on
the table: converting a table name to its descriptor and back gives the name,
and converting a table descriptor to its name and back gives the descriptor. -/
theorem c10_format_conversions :
    (∀ s : String, formats_table.lookup s = none → get_pisp_image_format s = 0) ∧
    ∀ p ∈ formats_table,
      get_pisp_image_format p.1 = p.2 ∧ get_pisp_image_format_name p.2 = p.1 := by
  refine ⟨fun s h => ?_, by decide⟩
  simp [get_pisp_image_format, h]

/-- Concrete instance of C10: an unknown name maps to 0, and the NV12 entry
round-trips in both directions. -/
theorem c10_format_conversions_witness :
    get_pisp_image_format "YUV420" = 0 ∧
    get_pisp_image_format "NV12" = 0x04000210 ∧
    get_pisp_image_format_name 0x04000210 = "NV12" := by
  refine ⟨c10_format_conversions.1 "YUV420" (by decide), ?_, ?_⟩
  · exact (c10_format_conversions.2 ("NV12", 0x04000210) (by decide)).1
  · exact (c10_format_conversions.2 ("NV12", 0x04000210) (by decide)).2

/-- Claim C7: with `motion_threshold_recip = 0` on entry, finalisation yields
255 when `motion_threshold_256 = 0` and otherwise
`min 255 ((256 + t - 1) / t)`, which is exactly `256 / t` rounded up
(`q * t ≥ 256 > (q - 1) * t`); a non-zero caller-supplied value is left
unchanged. -/
theorem c7_stitch_motion_threshold_recip (recip t : Nat) :
    (recip ≠ 0 → finalise_stitch_motion recip t = recip) ∧
    (recip = 0 → t = 0 → finalise_stitch_motion recip t = 255) ∧
    (recip = 0 → 0 < t →
      finalise_stitch_motion recip t = min 255 ((256 + t - 1) / t) ∧
      256 ≤ ((256 + t - 1) / t) * t ∧
      ((256 + t - 1) / t - 1) * t < 256) := by
  refine ⟨fun h => by simp [finalise_stitch_motion, h], fun h ht => by
    simp [finalise_stitch_motion, h, ht], fun h ht => ?_⟩
  subst h
  have e : 256 + t - 1 = 255 + t := by omega
  refine ⟨by simp [finalise_stitch_motion, Nat.pos_iff_ne_zero.mp ht], ?_, ?_⟩
  · have h1 := Nat.lt_div_mul_add (a := 255 + t) ht
    rw [e]
    omega
  · have h1 := Nat.div_mul_le_self (255 + t) t
    rw [e, Nat.sub_mul, Nat.one_mul]
    omega

/-- Concrete instance of C7: for `t = 3` the auto-fill gives 86 (the
round-up of 256/3) and a caller value of 7 is kept. -/
theorem c7_stitch_motion_threshold_recip_witness :
    finalise_stitch_motion 0 3 = min 255 ((256 + 3 - 1) / 3) ∧
    finalise_stitch_motion 7 3 = 7 :=
  ⟨((c7_stitch_motion_threshold_recip 0 3).2.2 rfl (by norm_num)).1,
    (c7_stitch_motion_threshold_recip 7 3).1 (by norm_num)⟩

theorem Interval.length_mk (o l : Int) : (Interval.mk o l).length = l := rfl

theorem Interval.offset_mk (o l : Int) : (Interval.mk o l).offset = o := rfl

theorem Interval.End_mk (o l : Int) : (Interval.mk o l).End = o + l := rfl

theorem le_foldl_max (es : List Int) (a : Int) : a ≤ es.foldl max a := by
  induction es generalizing a with
  | nil => simp
  | cons e es ih => exact le_trans (le_max_left a e) (ih (max a e))

theorem mem_le_foldl_max (es : List Int) (a e : Int) (h : e ∈ es) : e ≤ es.foldl max a := by
  induction es generalizing a with
  | nil => cases h
  | cons x es ih =>
    rcases List.mem_cons.mp h with rfl | h
    · exact le_trans (le_max_right a e) (le_foldl_max es (max a e))
    · exact ih (max a x) h

/-- The first loop of `PushEndDown` computes the running maximum of the
branch replies, starting from the split's current offset. -/
theorem splitFold_inv (es : List Int) (offset a : Int) (h : offset ≤ a) :
    es.foldl splitFoldStep (Interval.mk offset (a - offset)) =
      Interval.mk offset (es.foldl max a - offset) := by
  induction es generalizing a with
  | nil => simp
  | cons e es ih =>
    simp only [List.foldl_cons]
    by_cases hc : a < e
    · have hEnd : (Interval.mk offset (a - offset)).End < e := by
        unfold Interval.End
        simp only
        omega
      have hset : (Interval.mk offset (a - offset)).setEnd e = Interval.mk offset (e - offset) := by
        unfold Interval.setEnd
        simp only [Interval.mk.injEq, true_and]
        omega
      rw [splitFoldStep, if_pos hEnd, hset, ih e (by omega), max_eq_right (le_of_lt hc)]
    · have hEnd : ¬(Interval.mk offset (a - offset)).End < e := by
        unfold Interval.End
        simp only
        omega
      rw [splitFoldStep, if_neg hEnd, max_eq_left (by omega), ih a h]

/-- Claim C1 (amended): with at least one downstream branch, `PushEndDown`
first queries every branch with the unchanged `input_end`, and then
broadcasts the MAXIMUM of the branch replies (their running maximum with the
split's current offset) back down to every branch and returns it — not the
minimum; if no branch advances past the split's current offset it raises a
tiling failure instead of broadcasting. -/
theorem c1_split_push_end_down (offset input_end : Int) (branches : List (Int → Int))
    (h : 0 ≤ offset) :
    splitPushEndDown offset branches input_end =
      (if (branches.map (fun f => f input_end)).foldl max offset ≤ offset then none
       else some ((branches.map (fun f => f input_end)).foldl max offset,
         branches.map (fun _ => (branches.map (fun f => f input_end)).foldl max offset))) ∧
    offset ≤ (branches.map (fun f => f input_end)).foldl max offset ∧
    ∀ e ∈ branches.map (fun f => f input_end),
      e ≤ (branches.map (fun f => f input_end)).foldl max offset := by
  set es := branches.map (fun f => f input_end) with hes
  have hinit : (Interval.mk offset 0).setEnd 0 = Interval.mk offset (offset - offset) := by
    unfold Interval.setEnd
    simp only [Interval.mk.injEq, true_and]
    omega
  have hfold := splitFold_inv es offset offset le_rfl
  have hA := le_foldl_max es offset
  refine ⟨?_, hA, fun e he => mem_le_foldl_max es offset e he⟩
  unfold splitPushEndDown
  rw [← hes, hinit, hfold]
  simp only [Interval.length_mk, Interval.End_mk]
  by_cases hz : es.foldl max offset ≤ offset
  · rw [if_pos (by omega), if_pos hz]
  · rw [if_neg (by omega), if_neg hz]
    simp only [Option.some.injEq, Prod.mk.injEq]
    constructor
    · omega
    · apply List.map_congr_left
      intro f _
      omega

/-- Concrete instance of the amended C1: offset 1, branch replies 5 and 9;
the split broadcasts and returns 9. -/
theorem c1_split_push_end_down_witness :
    (0 : Int) ≤ 1 ∧ splitPushEndDown 1 [fun _ => 5, fun _ => 9] 100 = some (9, [9, 9]) := by
  have h := (c1_split_push_end_down 1 100 [fun _ => 5, fun _ => 9] (by norm_num)).1
  refine ⟨by norm_num, ?_⟩
  rw [h]
  decide

/-- Claim C1 counterexample: with branch replies 10 and 20 (from input end
30, split offset 0) the code broadcasts and returns 20 — the maximum of the
branch maxima — whereas the claim prescribes the minimum, 10. -/
theorem c1_counterexample :
    splitPushEndDown 0 [fun _ => 10, fun _ => 20] 30 = some (20, [20, 20]) ∧
    min 10 20 = (10 : Int) ∧ (20 : Int) ≠ 10 := by
  refine ⟨by decide, by decide, by decide⟩

/-- Claim C3 (code bug): for an RGB-input 4:2:0 configuration the code tests
the WIDTH in the check whose message reads "420 input height must be even".
An odd input height (width even) raises no failure at all, while an odd width
with even height raises precisely that "height" failure. -/
theorem c3_finalise_inputs_code_bug :
    finalise_inputs c3OddHeight = .ok () ∧
    finalise_inputs c3OddWidth = .error "finalise_inputs: 420 input height must be even" := by
  constructor <;> rfl

/-- Claim C4 (amended): when the downscaler is available and either axis
demands more than 2x reduction, the downscaler is enabled; each axis that
itself demands more than 2x reduction is programmed to the target size times
two clamped to `[ceil(in/8), in/2]` — giving a per-axis downscale factor
between 2x and 8x — while an axis NOT demanding more than 2x reduction keeps
the full input dimension (downscale factor 1 on that axis); otherwise the
downscaler enable for the branch is cleared. -/
theorem c4_smart_resize_downscale (avail : Bool) (iw ih tw th : Nat)
    (htw : 0 < tw) (hth : 0 < th) :
    (¬(avail = true ∧ (tw * 2 < iw ∨ th * 2 < ih)) →
      smartResizeDownscale avail iw ih tw th = none) ∧
    ((avail = true ∧ (tw * 2 < iw ∨ th * 2 < ih)) →
      ∃ w h, smartResizeDownscale avail iw ih tw th = some (w, h) ∧
        (tw * 2 < iw → w = clampN (tw * 2) ((iw + 7) / 8) (iw / 2) ∧ 2 * w ≤ iw ∧ iw ≤ 8 * w) ∧
        (¬tw * 2 < iw → w = iw) ∧
        (th * 2 < ih → h = clampN (th * 2) ((ih + 7) / 8) (ih / 2) ∧ 2 * h ≤ ih ∧ ih ≤ 8 * h) ∧
        (¬th * 2 < ih → h = ih)) := by
  constructor
  · intro hn
    unfold smartResizeDownscale
    rw [if_neg]
    simp only [Bool.and_eq_true, Bool.or_eq_true, decide_eq_true_eq]
    tauto
  · intro hp
    refine ⟨smartDownscaleDim tw iw, smartDownscaleDim th ih, ?_, ?_, ?_, ?_, ?_⟩
    · unfold smartResizeDownscale
      rw [if_pos]
      simp only [Bool.and_eq_true, Bool.or_eq_true, decide_eq_true_eq]
      tauto
    · intro hlt
      unfold smartDownscaleDim clampN
      rw [if_pos hlt]
      refine ⟨rfl, ?_, ?_⟩ <;> omega
    · intro hge
      unfold smartDownscaleDim
      rw [if_neg hge]
    · intro hlt
      unfold smartDownscaleDim clampN
      rw [if_pos hlt]
      refine ⟨rfl, ?_, ?_⟩ <;> omega
    · intro hge
      unfold smartDownscaleDim
      rw [if_neg hge]

/-- Concrete instance of the amended C4: input 100x40 with target 20x30; the
width axis demands more than 2x and is clamped to 40 (factor 2.5), while the
height axis keeps the input size 40 (factor 1). -/
theorem c4_smart_resize_downscale_witness :
    smartResizeDownscale true 100 40 20 30 = some (40, 40) := by
  obtain ⟨w, h, heq, hw1, -, -, hh2⟩ :=
    (c4_smart_resize_downscale true 100 40 20 30 (by norm_num) (by norm_num)).2
      ⟨rfl, Or.inl (by norm_num)⟩
  rw [heq, (hw1 (by norm_num)).1, hh2 (by norm_num)]
  rfl

/-- Claim C4 counterexample: downscaler available, rescaler input 1024x96,
target 400x80.  The width axis (800 < 1024) triggers the split, so the code
programs the downscaler to 512x96: the HEIGHT axis keeps the input dimension
96 because 80*2 = 160 is not less than 96, whereas the claim's formula
`clamp(target*2, ceil(in/8), in/2)` would demand `clamp(160, 12, 48) = 48`;
the height downscale factor is 1, not between 2x and 8x. -/
theorem c4_counterexample :
    smartResizeDownscale true 1024 96 400 80 = some (512, 96) ∧
    clampN (80 * 2) ((96 + 7) / 8) (96 / 2) = 48 ∧ (96 : Nat) ≠ 48 := by
  refine ⟨by rfl, by rfl, by omega⟩

/-- Claim C2 counterexample: a BOTTOMMOST tile of a branch whose after-crop
height is 8 (at least 1 but below the 16-pixel minimum) makes `check_tiles`
throw "Tile height too small after crop" — the code has no bottom-edge
exemption for the height minimum, only a right-edge exemption for widths. -/
theorem c2_counterexample :
    check_tiles [c2BottomTile] (PISP_BE_RGB_ENABLE_OUTPUT 0) 2 c2Tcfg =
      .error "Tile height too small after crop" ∧
    c2BottomTile.output_offset_y.getD 0 0 + c2BottomTile.output_height.getD 0 0 = 100 ∧
    (c2Tcfg.output_image_size.getD 0 ⟨0, 0⟩).dy = 100 ∧
    (1 : Nat) ≤ 8 ∧ (8 : Nat) < PISP_BACK_END_MIN_TILE_HEIGHT := by
  refine ⟨by rfl, by rfl, by rfl, by norm_num, by decide⟩

theorem check_tile_branch_sound (t : PispTile) (tcfg : TilingConfig) (i : Nat)
    (h : check_tile_branch t tcfg i = .ok ()) : branchMinSizeOk t tcfg i := by
  unfold branchMinSizeOk
  intro hw hh
  unfold check_tile_branch at h
  by_cases hassert : (widthAfterCrop t i * heightAfterCrop t i = 0) ≠
      (t.output_width.getD i 0 * t.output_height.getD i 0 = 0)
  · rw [if_pos hassert] at h
    simp at h
  · rw [if_neg hassert, if_pos ⟨hw, hh⟩] at h
    split_ifs at h with h1 h2 h3 h4 h5 h6
    all_goals try simp at h
    unfold PISP_BACK_END_MIN_TILE_WIDTH PISP_BACK_END_MIN_TILE_HEIGHT at *
    refine ⟨⟨by omega, by omega, by omega⟩, fun hrh => ⟨?_, ?_, ?_⟩⟩
    · have hx : ¬(widthAfterCrop t i < 16) := fun hlt => h1 ⟨hlt, hrh⟩
      omega
    · have hx : ¬(t.resample_in_width.getD i 0 < 16) := fun hlt => h3 ⟨hlt, hrh⟩
      omega
    · have hx : ¬(t.output_width.getD i 0 < 16) := fun hlt => h5 ⟨hrh, hlt⟩
      omega

theorem check_tile_branches_sound (t : PispTile) (rgb_enables : Nat) (tcfg : TilingConfig)
    (l : List Nat) (h : check_tile_branches t rgb_enables tcfg l = .ok ()) :
    ∀ i ∈ l, hasBits rgb_enables (PISP_BE_RGB_ENABLE_OUTPUT i) = true →
      check_tile_branch t tcfg i = .ok () := by
  induction l with
  | nil => intro i hi; cases hi
  | cons j rest ih =>
    intro i hi hen
    unfold check_tile_branches at h
    rcases List.mem_cons.mp hi with rfl | hmem
    · rw [hen] at h
      simp only [if_true] at h
      revert h
      cases hbj : check_tile_branch t tcfg i with
      | ok v => intro _; rfl
      | error e => intro h; cases h
    · revert h
      split
      · cases hbj : check_tile_branch t tcfg j with
        | ok v => exact fun h => ih h i hmem hen
        | error e => intro h; cases h
      · exact fun h => ih h i hmem hen

theorem check_tile_sound (t : PispTile) (rgb_enables numBranches : Nat) (tcfg : TilingConfig)
    (h : check_tile t rgb_enables numBranches tcfg = .ok ()) :
    (PISP_BACK_END_MIN_TILE_WIDTH ≤ t.input_width ∧
      PISP_BACK_END_MIN_TILE_HEIGHT ≤ t.input_height) ∧
    ∀ i < numBranches, hasBits rgb_enables (PISP_BE_RGB_ENABLE_OUTPUT i) = true →
      branchMinSizeOk t tcfg i := by
  unfold check_tile at h
  split at h
  · cases h
  · split at h
    · cases h
    · refine ⟨by unfold PISP_BACK_END_MIN_TILE_WIDTH PISP_BACK_END_MIN_TILE_HEIGHT at *; omega, ?_⟩
      intro i hi hen
      exact check_tile_branch_sound t tcfg i
        (check_tile_branches_sound t rgb_enables tcfg _ h i (List.mem_range.mpr hi) hen)

/-- Claim C2 (amended): when `check_tiles` succeeds, every checked tile is at
least 16 pixels in each axis at the pipe input, and for every enabled branch
whose sub-tile is not cropped away entirely, the after-crop height, the
after-downscale height and the output height meet the 16-pixel minimum with
NO bottom-edge exemption, while the corresponding widths meet it unless the
tile is the branch's rightmost tile (its output ends at the branch output
image width); sub-tiles cropped away entirely (zero after-crop area,
equivalently zero output area) are exempt. -/
theorem c2_check_tiles_min_sizes (tiles : List PispTile) (rgb_enables numBranches : Nat)
    (tcfg : TilingConfig)
    (h : check_tiles tiles rgb_enables numBranches tcfg = .ok ()) :
    ∀ t ∈ tiles,
      (PISP_BACK_END_MIN_TILE_WIDTH ≤ t.input_width ∧
        PISP_BACK_END_MIN_TILE_HEIGHT ≤ t.input_height) ∧
      ∀ i < numBranches, hasBits rgb_enables (PISP_BE_RGB_ENABLE_OUTPUT i) = true →
        branchMinSizeOk t tcfg i := by
  induction tiles with
  | nil => intro t ht; cases ht
  | cons t0 rest ih =>
    intro t ht
    unfold check_tiles at h
    revert h
    cases hck : check_tile t0 rgb_enables numBranches tcfg with
    | error e => intro h; cases h
    | ok u =>
      intro h
      rcases List.mem_cons.mp ht with rfl | hmem
      · exact check_tile_sound t rgb_enables numBranches tcfg hck
      · exact ih h t hmem

/-- Concrete instance of the amended C2: a full-size tile passes the check
and in particular meets the input minimum and the branch-0 guarantees. -/
theorem c2_check_tiles_min_sizes_witness :
    PISP_BACK_END_MIN_TILE_WIDTH ≤ c2GoodTile.input_width ∧
    branchMinSizeOk c2GoodTile c2GoodTcfg 0 := by
  have h := c2_check_tiles_min_sizes [c2GoodTile] (PISP_BE_RGB_ENABLE_OUTPUT 0) 2 c2GoodTcfg
    (by rfl) c2GoodTile (by simp)
  exact ⟨h.1.1, h.2 0 (by norm_num) (by decide)⟩

/-- Claim C9: in a row-major `nx` by `ny` grid, tile `i` carries TOP iff
`i < nx`, BOTTOM iff `i ≥ nx*(ny-1)`, LEFT iff `i mod nx = 0`, RIGHT iff
`(i+1) mod nx = 0`, and no bits outside the four edge flags are set. -/
theorem c9_tile_edge_flags (nx ny i : Nat) (hx : 0 < nx) (hi : i < nx * ny) :
    (hasBits (tileEdge nx ny i) PISP_TOP_EDGE = true ↔ i < nx) ∧
    (hasBits (tileEdge nx ny i) PISP_BOTTOM_EDGE = true ↔ nx * (ny - 1) ≤ i) ∧
    (hasBits (tileEdge nx ny i) PISP_LEFT_EDGE = true ↔ i % nx = 0) ∧
    (hasBits (tileEdge nx ny i) PISP_RIGHT_EDGE = true ↔ (i + 1) % nx = 0) ∧
    tileEdge nx ny i &&&
      (PISP_TOP_EDGE ||| PISP_BOTTOM_EDGE ||| PISP_LEFT_EDGE ||| PISP_RIGHT_EDGE) =
      tileEdge nx ny i := by
  by_cases h1 : i < nx <;> by_cases h2 : nx * (ny - 1) ≤ i <;>
    by_cases h3 : i % nx = 0 <;> by_cases h4 : (i + 1) % nx = 0 <;>
    simp only [tileEdge, hasBits, PISP_TOP_EDGE, PISP_BOTTOM_EDGE, PISP_LEFT_EDGE,
      PISP_RIGHT_EDGE, h1, h2, h3, h4, if_true, if_false, iff_true, iff_false,
      eq_self_iff_true, not_true, not_false_iff, if_pos, if_neg, not_lt, not_le] <;>
    refine ⟨?_, ?_, ?_, ?_, ?_⟩ <;> decide

/-- Concrete instance of C9: in a 3x2 grid, tile 5 is the bottom-right
corner. -/
theorem c9_tile_edge_flags_witness :
    (0 : Nat) < 3 ∧ (5 : Nat) < 3 * 2 ∧
    hasBits (tileEdge 3 2 5) PISP_BOTTOM_EDGE = true ∧
    hasBits (tileEdge 3 2 5) PISP_RIGHT_EDGE = true ∧
    hasBits (tileEdge 3 2 5) PISP_TOP_EDGE = false := by
  have h := c9_tile_edge_flags 3 2 5 (by norm_num) (by norm_num)
  refine ⟨by norm_num, by norm_num, h.2.1.mpr (by norm_num), h.2.2.2.1.mpr (by norm_num), ?_⟩
  have := h.1
  revert this
  decide

/-- Claim C5: for every tile and enabled branch whose output sub-rectangle
has zero width or height, the emitted branch record has
`crop_x_start = input_width`, `crop_x_end = 0`, `crop_y_start = input_height`,
`crop_y_end = 0`, and zero resample-in sizes, output offsets and output
sizes (with all phases zero from the `memset`), so the branch produces no
output for this tile. -/
theorem c5_zero_output_branch (c : BeConfig) (ce : BeConfigExtra) (sw : SwTile)
    (input_width input_height j : Nat)
    (hen : hasBits c.global.rgb_enables (PISP_BE_RGB_ENABLE_OUTPUT j) = true)
    (hzero : (sw.output.getD j Region.zero).output.x.length = 0 ∨
      (sw.output.getD j Region.zero).output.y.length = 0) :
    retileBranch c ce sw input_width input_height j =
      .ok (zeroBranchOut input_width input_height) := by
  unfold retileBranch
  rw [if_pos ⟨hen, hzero⟩]

/-- Concrete instance of C5: an all-zero software tile (zero-length branch
output) on a 32x24 input tile yields the "crop eats everything" record. -/
theorem c5_zero_output_branch_witness :
    retileBranch c5Cfg BeConfigExtra.zero SwTile.zero 32 24 0 = .ok (zeroBranchOut 32 24) :=
  c5_zero_output_branch c5Cfg BeConfigExtra.zero SwTile.zero 32 24 0 (by decide)
    (Or.inl (by decide))

/-- Claim C8 (amended): a `Prepare` call with a null output pointer runs the
same validation, smart-resize resolution, finalisation and tiling update as
a non-null call and mutates the internal state identically, but writes no
output payload and does not clear the dirty flags; a successful non-null
call on the same state performs exactly the same mutation, then clears all
three dirty-flag groups and emits `{config, tiles, num_tiles}` from the
mutated state.  (The flags are NOT necessarily unchanged by a null call:
smart-resize resolution marks the scaler blocks it programs as dirty, see
the counterexample.) -/
theorem c8_prepare_null_pointer (engine : TilingConfig → Except String (List SwTile × Nat × Nat))
    (s s' : BackEndState) (h : Prepare engine false s = .ok (s', none)) :
    Prepare engine true s = .ok (clearDirtyFlags s', some (emitTilesConfig s')) := by
  unfold Prepare at h ⊢
  cases hc : prepareCommon engine s with
  | error e =>
    rw [hc] at h
    cases h
  | ok s0 =>
    rw [hc] at h
    have hs : s0 = s' := by simpa using h
    subst hs
    rfl

/-- Concrete instance of the amended C8: the non-null call on `c8State`
equals the null call's state with dirty flags cleared, plus the emitted
payload. -/
theorem c8_prepare_null_pointer_witness :
    Prepare c8Engine true c8State =
      .ok (clearDirtyFlags c8AfterState, some (emitTilesConfig c8AfterState)) :=
  c8_prepare_null_pointer c8Engine c8State c8AfterState (by rfl)

/-- Claim C8 counterexample: on `c8State` the null-pointer `Prepare`
succeeds, writes no output — but the dirty flags are NOT unchanged: the
dirty-flag set grows from empty to the branch-0 resample bit, because
smart-resize resolution programs the resampler through its setter. -/
theorem c8_counterexample :
    (Prepare c8Engine false c8State).map (fun r =>
      (r.1.be_config_extra.dirty_flags_bayer, r.1.be_config_extra.dirty_flags_rgb,
        r.1.be_config_extra.dirty_flags_extra, r.2)) =
      .ok (0, PISP_BE_RGB_ENABLE_RESAMPLE 0, 0, none) ∧
    c8State.be_config_extra.dirty_flags_rgb = 0 ∧
    PISP_BE_RGB_ENABLE_RESAMPLE 0 ≠ 0 := by
  refine ⟨by rfl, by rfl, by decide⟩

end LibPisp
